import Mathlib

/-!
Verification development for the mcp-server-templated repository
(src/index.ts). The TypeScript source is shallowly embedded: JavaScript
values are modelled by an inductive type with explicit truthiness, the
mutable module-level session variables by an explicit state record, and the
downstream REST service by a function from issued requests to responses.
Each tool handler is translated into a function that returns the list of
REST calls it issued together with either its result value or the message
of the exception it threw.
-/

/-- Model of a JavaScript runtime value as it occurs in the server:
null, undefined, booleans, numbers, strings, arrays and plain objects.
Numbers are modelled as integers; no handler performs arithmetic on them,
they are only tested for truthiness and converted to strings. -/
inductive JsValue where
  | nullV
  | undef
  | boolV (b : Bool)
  | numV (n : Int)
  | strV (s : String)
  | arrV (xs : List JsValue)
  | objV (fields : List (String × JsValue))

/-- A JavaScript object / the `args` record of a tool call: an ordered list
of key-value pairs (insertion order, as in V8 objects). -/
abbrev JsRecord := List (String × JsValue)

/-- Property access `r[k]`: the first binding of `k`, or `undefined` when the
key is absent (JavaScript semantics for a missing property). -/
def rget (r : JsRecord) (k : String) : JsValue :=
  match r.find? (fun p => p.1 == k) with
  | some p => p.2
  | none => JsValue.undef

/-- Property access `v.k` on an arbitrary value: objects look the key up,
every other value yields `undefined`. -/
def jsGet (v : JsValue) (k : String) : JsValue :=
  match v with
  | JsValue.objV fs => rget fs k
  | _ => JsValue.undef

/-- JavaScript truthiness: null, undefined, false, 0 and the empty string are
falsy; every array and object is truthy. -/
def jsTruthy : JsValue → Bool
  | JsValue.nullV => false
  | JsValue.undef => false
  | JsValue.boolV b => b
  | JsValue.numV n => n != 0
  | JsValue.strV s => s != ""
  | JsValue.arrV _ => true
  | JsValue.objV _ => true

/-- The test `v !== undefined` used by the handlers for paging arguments. -/
def isUndef : JsValue → Bool
  | JsValue.undef => true
  | _ => false

/-- Strict equality `v === s` between an arbitrary value and a string, as in
the scope validators (`template.folderId !== folderId`): true exactly when
`v` is the string `s`. -/
def jsEqStr (v : JsValue) (s : String) : Bool :=
  match v with
  | JsValue.strV t => t == s
  | _ => false

/-- The nullish-coalescing operator `a ?? d`. -/
def jsNullish (v d : JsValue) : JsValue :=
  match v with
  | JsValue.nullV => d
  | JsValue.undef => d
  | _ => v

mutual

/-- JavaScript `String(v)` conversion, used by template-literal
interpolation when building request paths and query parameter values. -/
def jsToString : JsValue → String
  | JsValue.nullV => "null"
  | JsValue.undef => "undefined"
  | JsValue.boolV b => cond b "true" "false"
  | JsValue.numV n => toString n
  | JsValue.strV s => s
  | JsValue.arrV xs => jsToStringList xs
  | JsValue.objV _ => "[object Object]"

/-- `String(array)` joins the elements with commas. -/
def jsToStringList : List JsValue → String
  | [] => ""
  | [x] => jsToString x
  | x :: xs => jsToString x ++ "," ++ jsToStringList xs

end

mutual

/-- `JSON.stringify` (indentation not modelled; no claim depends on the
whitespace of a success payload). -/
def jsonStringify : JsValue → String
  | JsValue.nullV => "null"
  | JsValue.undef => "undefined"
  | JsValue.boolV b => cond b "true" "false"
  | JsValue.numV n => toString n
  | JsValue.strV s => "\"" ++ s ++ "\""
  | JsValue.arrV xs => "[" ++ jsonStringifyElems xs ++ "]"
  | JsValue.objV fs => "\x7b" ++ jsonStringifyFields fs ++ "\x7d"

def jsonStringifyElems : List JsValue → String
  | [] => ""
  | [x] => jsonStringify x
  | x :: xs => jsonStringify x ++ "," ++ jsonStringifyElems xs

def jsonStringifyFields : List (String × JsValue) → String
  | [] => ""
  | [p] => "\"" ++ p.1 ++ "\":" ++ jsonStringify p.2
  | p :: ps => "\"" ++ p.1 ++ "\":" ++ jsonStringify p.2 ++ "," ++ jsonStringifyFields ps

end

/-- One outbound request of `apiRequest` as it reaches `fetch`: method, path
under the fixed base URL, the JSON body actually attached (only for
POST/PUT/PATCH), and the query parameters appended to the URL (an empty list
means no query string). -/
structure RestCall where
  method : String
  path : String
  body : Option JsRecord
  queryParams : List (String × String)

/-- Response of the downstream service to one request, as observed by
`apiRequest`: a non-ok response with status and body text, an ok response
with an empty body, or an ok response whose body parses to a JSON value. -/
inductive ApiResult where
  | err (status : Nat) (text : String)
  | empty
  | json (v : JsValue)

/-- The downstream REST service (api.templated.io), an opaque collaborator:
a function from the issued request to its response. -/
def Downstream := RestCall → ApiResult

/-- Result of running a handler fragment: the REST calls it issued, in
order, and either its value or the message of the error it threw. -/
abbrev Res (α : Type) := List RestCall × Except String α

def pureRes {α : Type} (a : α) : Res α := ([], Except.ok a)

def errRes {α : Type} (e : String) : Res α := ([], Except.error e)

/-- Sequencing of two handler fragments: an error in the first aborts the
second (exception propagation through `await`); traces concatenate. -/
def bindRes {α β : Type} (x : Res α) (f : α → Res β) : Res β :=
  match x with
  | (calls, Except.error e) => (calls, Except.error e)
  | (calls, Except.ok a) =>
    match f a with
    | (calls2, r) => (calls ++ calls2, r)

/-- The session scope a handler runs under: the values `getApiKey()`,
`getFolderId()` and `getExternalId()` return for the duration of the call.
(The source re-reads the module-level variables at each use; within one
tool call no code in the handler writes them, so a fixed triple is
faithful for single-call properties.) -/
structure Scope where
  apiKey : String
  folderId : Option String
  externalId : Option String

/-- Truthiness of a `string | null` JavaScript value: null and the empty
string are falsy. -/
def jsOptTruthy : Option String → Bool
  | some s => s != ""
  | none => false

/-- Error message thrown by `apiRequest` when no API key is resolvable. -/
def missingKeyMsg : String :=
  "API key required. Please provide your Templated API key via ?apiKey= query parameter or Authorization header."

/-- The body `fetch` receives: `apiRequest` attaches the body only when one
was given and the method is POST, PUT or PATCH. -/
def attachBody (method : String) (body : Option JsRecord) : Option JsRecord :=
  match body with
  | none => none
  | some b =>
    if method == "POST" || method == "PUT" || method == "PATCH" then some b else none

/-- `apiRequest(method, path, body?, queryParams?)`: throws when the API key
is empty; otherwise issues exactly one request and either throws
`API error (status): text` on a non-ok response, normalises an empty body to
the object with a single field success=true, or returns the parsed JSON. -/
def apiRequest (scope : Scope) (ds : Downstream) (method path : String)
    (body : Option JsRecord) (qp : List (String × String)) : Res JsValue :=
  if scope.apiKey == "" then errRes missingKeyMsg
  else
    match ds { method := method, path := path, body := attachBody method body, queryParams := qp } with
    | ApiResult.err status text =>
      ([{ method := method, path := path, body := attachBody method body, queryParams := qp }],
        Except.error ("API error (" ++ toString status ++ "): " ++ text))
    | ApiResult.empty =>
      ([{ method := method, path := path, body := attachBody method body, queryParams := qp }],
        Except.ok (JsValue.objV [("success", JsValue.boolV true)]))
    | ApiResult.json v =>
      ([{ method := method, path := path, body := attachBody method body, queryParams := qp }],
        Except.ok v)

/-- `validateTemplateInFolder(templateId)`: no-op without a configured
folder; otherwise fetches the template and throws a generic error when its
folderId attribute differs (strictly) from the configured folder id. -/
def validateTemplateInFolder (scope : Scope) (ds : Downstream) (templateId : String) : Res Unit :=
  match scope.folderId with
  | none => pureRes ()
  | some folderId =>
    if folderId == "" then pureRes ()
    else
      bindRes (apiRequest scope ds "GET" ("/v1/template/" ++ templateId) none []) (fun template =>
        if jsEqStr (jsGet template "folderId") folderId then pureRes ()
        else errRes "Template not found in the configured folder")

/-- `moveTemplateToFolder(templateId)`: no-op without a configured folder;
otherwise attaches the template to the configured folder. -/
def moveTemplateToFolder (scope : Scope) (ds : Downstream) (templateId : String) : Res Unit :=
  match scope.folderId with
  | none => pureRes ()
  | some folderId =>
    if folderId == "" then pureRes ()
    else
      bindRes (apiRequest scope ds "PUT" ("/v1/folder/" ++ folderId ++ "/template/" ++ templateId) none [])
        (fun _ => pureRes ())

/-- `validateTemplateByExternalId(templateId)`: no-op without a configured
external id; otherwise fetches the template and throws a generic error when
its externalId attribute differs from the configured external id. -/
def validateTemplateByExternalId (scope : Scope) (ds : Downstream) (templateId : String) : Res Unit :=
  match scope.externalId with
  | none => pureRes ()
  | some externalId =>
    if externalId == "" then pureRes ()
    else
      bindRes (apiRequest scope ds "GET" ("/v1/template/" ++ templateId) none []) (fun template =>
        if jsEqStr (jsGet template "externalId") externalId then pureRes ()
        else errRes "Template not found for the configured external ID")

/-- Conditionally extend a request body: `if (cond) body.k = v`. -/
def addIf (b : JsRecord) (c : Bool) (k : String) (v : JsValue) : JsRecord :=
  if c then b ++ [(k, v)] else b

/-- Conditionally extend query parameters: `if (cond) params.k = v`. -/
def addParamIf (p : List (String × String)) (c : Bool) (k v : String) : List (String × String) :=
  if c then p ++ [(k, v)] else p

/-- Request body of `create_render`: the template id plus every truthy
optional argument. -/
def createRenderBody (args : JsRecord) : JsRecord :=
  let b : JsRecord := [("template", rget args "template")]
  let b := addIf b (jsTruthy (rget args "format")) "format" (rget args "format")
  let b := addIf b (jsTruthy (rget args "layers")) "layers" (rget args "layers")
  let b := addIf b (jsTruthy (rget args "transparent")) "transparent" (rget args "transparent")
  let b := addIf b (jsTruthy (rget args "duration")) "duration" (rget args "duration")
  let b := addIf b (jsTruthy (rget args "fps")) "fps" (rget args "fps")
  let b := addIf b (jsTruthy (rget args "flatten")) "flatten" (rget args "flatten")
  let b := addIf b (jsTruthy (rget args "cmyk")) "cmyk" (rget args "cmyk")
  let b := addIf b (jsTruthy (rget args "width")) "width" (rget args "width")
  let b := addIf b (jsTruthy (rget args "height")) "height" (rget args "height")
  let b := addIf b (jsTruthy (rget args "scale")) "scale" (rget args "scale")
  let b := addIf b (jsTruthy (rget args "name")) "name" (rget args "name")
  let b := addIf b (jsTruthy (rget args "background")) "background" (rget args "background")
  b

/-- Query parameters of `list_renders`: page/limit when not undefined, plus
the configured external id when truthy. -/
def listRendersParams (scope : Scope) (args : JsRecord) : List (String × String) :=
  let p : List (String × String) := []
  let p := addParamIf p (!isUndef (rget args "page")) "page" (jsToString (rget args "page"))
  let p := addParamIf p (!isUndef (rget args "limit")) "limit" (jsToString (rget args "limit"))
  let p := addParamIf p (jsOptTruthy scope.externalId) "externalId" (scope.externalId.getD "")
  p

/-- Request body of `merge_renders`: the render ids, and `host` defaulting
to true via nullish coalescing. -/
def mergeRendersBody (args : JsRecord) : JsRecord :=
  [("ids", rget args "render_ids"), ("host", jsNullish (rget args "host") (JsValue.boolV true))]

/-- Query parameters of `list_templates`. -/
def listTemplatesParams (scope : Scope) (args : JsRecord) : List (String × String) :=
  let p : List (String × String) := []
  let p := addParamIf p (jsTruthy (rget args "query")) "query" (jsToString (rget args "query"))
  let p := addParamIf p (!isUndef (rget args "page")) "page" (jsToString (rget args "page"))
  let p := addParamIf p (!isUndef (rget args "limit")) "limit" (jsToString (rget args "limit"))
  let p := addParamIf p (!isUndef (rget args "width")) "width" (jsToString (rget args "width"))
  let p := addParamIf p (!isUndef (rget args "height")) "height" (jsToString (rget args "height"))
  let p := addParamIf p (jsTruthy (rget args "tags")) "tags" (jsToString (rget args "tags"))
  let p := addParamIf p (jsTruthy (rget args "includeLayers")) "includeLayers" "true"
  let p := addParamIf p (jsOptTruthy scope.externalId) "externalId" (scope.externalId.getD "")
  p

/-- Request body of `create_template`: name, width and height always; layers
when truthy; the configured external id when truthy. `background` and
`duration` are not read. -/
def createTemplateBody (scope : Scope) (args : JsRecord) : JsRecord :=
  let b : JsRecord :=
    [("name", rget args "name"), ("width", rget args "width"), ("height", rget args "height")]
  let b := addIf b (jsTruthy (rget args "layers")) "layers" (rget args "layers")
  let b := addIf b (jsOptTruthy scope.externalId) "externalId"
    (JsValue.strV (scope.externalId.getD ""))
  b

/-- Request body of `update_template`: each truthy optional argument.
`background` and `duration` are not read. -/
def updateTemplateBody (args : JsRecord) : JsRecord :=
  let b : JsRecord := []
  let b := addIf b (jsTruthy (rget args "name")) "name" (rget args "name")
  let b := addIf b (jsTruthy (rget args "description")) "description" (rget args "description")
  let b := addIf b (jsTruthy (rget args "width")) "width" (rget args "width")
  let b := addIf b (jsTruthy (rget args "height")) "height" (rget args "height")
  let b := addIf b (jsTruthy (rget args "layers")) "layers" (rget args "layers")
  b

/-- Query parameters of `update_template`. -/
def updateTemplateParams (args : JsRecord) : List (String × String) :=
  addParamIf [] (jsTruthy (rget args "replaceLayers")) "replaceLayers" "true"

/-- Request body of `clone_template`. -/
def cloneTemplateBody (args : JsRecord) : JsRecord :=
  addIf [] (jsTruthy (rget args "name")) "name" (rget args "name")

/-- Query parameters of `list_template_renders`. -/
def listTemplateRendersParams (args : JsRecord) : List (String × String) :=
  let p : List (String × String) := []
  let p := addParamIf p (!isUndef (rget args "page")) "page" (jsToString (rget args "page"))
  let p := addParamIf p (!isUndef (rget args "limit")) "limit" (jsToString (rget args "limit"))
  p

/-- Query parameters of `list_folders`. -/
def listFoldersParams (args : JsRecord) : List (String × String) :=
  let p : List (String × String) := []
  let p := addParamIf p (!isUndef (rget args "page")) "page" (jsToString (rget args "page"))
  let p := addParamIf p (!isUndef (rget args "limit")) "limit" (jsToString (rget args "limit"))
  p

/-- Request body of `create_upload`. -/
def createUploadBody (args : JsRecord) : JsRecord :=
  addIf [("url", rget args "url")] (jsTruthy (rget args "name")) "name" (rget args "name")

/-- Query parameters of `list_uploads`. -/
def listUploadsParams (args : JsRecord) : List (String × String) :=
  let p : List (String × String) := []
  let p := addParamIf p (!isUndef (rget args "page")) "page" (jsToString (rget args "page"))
  let p := addParamIf p (!isUndef (rget args "limit")) "limit" (jsToString (rget args "limit"))
  p

/-- Query parameters of `list_fonts`. -/
def listFontsParams (args : JsRecord) : List (String × String) :=
  let p : List (String × String) := []
  let p := addParamIf p (!isUndef (rget args "page")) "page" (jsToString (rget args "page"))
  let p := addParamIf p (!isUndef (rget args "limit")) "limit" (jsToString (rget args "limit"))
  p

/-- `handleToolCall(name, args)`: the dispatch switch over all 25 tools,
translated case by case from the source. The `default` branch throws
`Unknown tool: name`. -/
def handleToolCall (scope : Scope) (ds : Downstream) (name : String) (args : JsRecord) : Res JsValue :=
  if name == "create_render" then
    bindRes (validateTemplateInFolder scope ds (jsToString (rget args "template"))) (fun _ =>
    bindRes (validateTemplateByExternalId scope ds (jsToString (rget args "template"))) (fun _ =>
    apiRequest scope ds "POST" "/v1/render" (some (createRenderBody args)) []))
  else if name == "get_render" then
    apiRequest scope ds "GET" ("/v1/render/" ++ jsToString (rget args "render_id")) none []
  else if name == "list_renders" then
    let rendersPath :=
      if jsOptTruthy scope.folderId then "/v1/folder/" ++ scope.folderId.getD "" ++ "/renders"
      else "/v1/renders"
    apiRequest scope ds "GET" rendersPath none (listRendersParams scope args)
  else if name == "delete_render" then
    apiRequest scope ds "DELETE" ("/v1/render/" ++ jsToString (rget args "render_id")) none []
  else if name == "merge_renders" then
    apiRequest scope ds "POST" "/v1/renders/merge" (some (mergeRendersBody args)) []
  else if name == "list_templates" then
    let templatesPath :=
      if jsOptTruthy scope.folderId then "/v1/folder/" ++ scope.folderId.getD "" ++ "/templates"
      else "/v1/templates"
    apiRequest scope ds "GET" templatesPath none (listTemplatesParams scope args)
  else if name == "get_template" then
    bindRes (validateTemplateInFolder scope ds (jsToString (rget args "template_id"))) (fun _ =>
    bindRes (validateTemplateByExternalId scope ds (jsToString (rget args "template_id"))) (fun _ =>
    apiRequest scope ds "GET" ("/v1/template/" ++ jsToString (rget args "template_id")) none []))
  else if name == "get_template_layers" then
    bindRes (validateTemplateInFolder scope ds (jsToString (rget args "template_id"))) (fun _ =>
    bindRes (validateTemplateByExternalId scope ds (jsToString (rget args "template_id"))) (fun _ =>
    apiRequest scope ds "GET" ("/v1/template/" ++ jsToString (rget args "template_id") ++ "/layers") none []))
  else if name == "get_template_pages" then
    bindRes (validateTemplateInFolder scope ds (jsToString (rget args "template_id"))) (fun _ =>
    bindRes (validateTemplateByExternalId scope ds (jsToString (rget args "template_id"))) (fun _ =>
    apiRequest scope ds "GET" ("/v1/template/" ++ jsToString (rget args "template_id") ++ "/pages") none []))
  else if name == "create_template" then
    bindRes (apiRequest scope ds "POST" "/v1/template" (some (createTemplateBody scope args)) []) (fun result =>
    bindRes (moveTemplateToFolder scope ds (jsToString (jsGet result "id"))) (fun _ =>
    pureRes result))
  else if name == "update_template" then
    bindRes (validateTemplateInFolder scope ds (jsToString (rget args "template_id"))) (fun _ =>
    bindRes (validateTemplateByExternalId scope ds (jsToString (rget args "template_id"))) (fun _ =>
    apiRequest scope ds "PUT" ("/v1/template/" ++ jsToString (rget args "template_id"))
      (some (updateTemplateBody args)) (updateTemplateParams args)))
  else if name == "clone_template" then
    bindRes (validateTemplateInFolder scope ds (jsToString (rget args "template_id"))) (fun _ =>
    bindRes (validateTemplateByExternalId scope ds (jsToString (rget args "template_id"))) (fun _ =>
    bindRes (apiRequest scope ds "POST" ("/v1/template/" ++ jsToString (rget args "template_id") ++ "/clone")
        (some (cloneTemplateBody args)) []) (fun result =>
    bindRes (moveTemplateToFolder scope ds (jsToString (jsGet result "id"))) (fun _ =>
    if jsOptTruthy scope.externalId then
      bindRes (apiRequest scope ds "PUT" ("/v1/template/" ++ jsToString (jsGet result "id"))
          (some [("externalId", JsValue.strV (scope.externalId.getD ""))]) []) (fun _ =>
      pureRes result)
    else pureRes result))))
  else if name == "delete_template" then
    bindRes (validateTemplateInFolder scope ds (jsToString (rget args "template_id"))) (fun _ =>
    bindRes (validateTemplateByExternalId scope ds (jsToString (rget args "template_id"))) (fun _ =>
    apiRequest scope ds "DELETE" ("/v1/template/" ++ jsToString (rget args "template_id")) none []))
  else if name == "list_template_renders" then
    bindRes (validateTemplateInFolder scope ds (jsToString (rget args "template_id"))) (fun _ =>
    bindRes (validateTemplateByExternalId scope ds (jsToString (rget args "template_id"))) (fun _ =>
    apiRequest scope ds "GET" ("/v1/template/" ++ jsToString (rget args "template_id") ++ "/renders")
      none (listTemplateRendersParams args)))
  else if name == "list_folders" then
    apiRequest scope ds "GET" "/v1/folders" none (listFoldersParams args)
  else if name == "create_folder" then
    apiRequest scope ds "POST" "/v1/folder" (some [("name", rget args "name")]) []
  else if name == "update_folder" then
    apiRequest scope ds "PUT" ("/v1/folder/" ++ jsToString (rget args "folder_id"))
      (some [("name", rget args "name")]) []
  else if name == "delete_folder" then
    apiRequest scope ds "DELETE" ("/v1/folder/" ++ jsToString (rget args "folder_id")) none []
  else if name == "list_uploads" then
    apiRequest scope ds "GET" "/v1/uploads" none (listUploadsParams args)
  else if name == "create_upload" then
    apiRequest scope ds "POST" "/v1/upload" (some (createUploadBody args)) []
  else if name == "delete_upload" then
    apiRequest scope ds "DELETE" ("/v1/upload/" ++ jsToString (rget args "upload_id")) none []
  else if name == "list_fonts" then
    apiRequest scope ds "GET" "/v1/fonts" none (listFontsParams args)
  else if name == "upload_font" then
    apiRequest scope ds "POST" "/v1/font" (some [("url", rget args "url"), ("name", rget args "name")]) []
  else if name == "delete_font" then
    apiRequest scope ds "DELETE" ("/v1/font/" ++ jsToString (rget args "font_id")) none []
  else if name == "get_account" then
    apiRequest scope ds "GET" "/v1/account" none []
  else
    errRes ("Unknown tool: " ++ name)

/-- The tool-call response payload: the text content and the isError flag
(false models an absent isError field on the success path). -/
structure ToolResponse where
  text : String
  isError : Bool
deriving DecidableEq

/-- The CallToolRequestSchema handler: runs `handleToolCall` and converts a
successful result into a JSON text payload, or a thrown error into an
error payload prefixed with `Error: `. -/
def callTool (scope : Scope) (ds : Downstream) (name : String) (args : JsRecord) : ToolResponse :=
  match handleToolCall scope ds name args with
  | (_, Except.ok result) => { text := jsonStringify result, isError := false }
  | (_, Except.error e) => { text := "Error: " ++ e, isError := true }

/-- One entry of the static tool registry. Only the name and the
user-facing description are modelled: the ListTools handler reads the name
(to hide folder tools) and rewrites the description, and passes every other
field (schema, annotations) through unchanged via object spread. -/
structure ToolEntry where
  name : String
  description : String
deriving DecidableEq

/-- The static `tools` registry, in source order. -/
def toolsRegistry : List ToolEntry :=
  [ { name := "create_render",
      description := "Create a render (image, video, or PDF) from a template. This is the main tool for generating content. Supports formats: jpg, png, webp, pdf, mp4." },
    { name := "get_render",
      description := "Retrieve a specific render by its ID to get the status and file URL" },
    { name := "list_renders",
      description := "List all renders in the account" },
    { name := "delete_render",
      description := "Delete a specific render" },
    { name := "merge_renders",
      description := "Merge multiple PDF renders into a single PDF document" },
    { name := "list_templates",
      description := "List all templates in the account. Use this to find template IDs for rendering." },
    { name := "get_template",
      description := "Retrieve a specific template by ID" },
    { name := "get_template_layers",
      description := "Get all layers of a template. Use this to understand what layers can be modified when creating a render." },
    { name := "get_template_pages",
      description := "Get all pages of a multi-page template" },
    { name := "create_template",
      description := "Create a new template programmatically with layers. IMPORTANT: Each layer must have a \x27layer\x27 field (unique identifier/name), not \x27name\x27. Valid layer types are: \x27text\x27, \x27image\x27, \x27shape\x27, \x27rating\x27. Use \x27shape\x27 for rectangles, circles, and other shapes - shapes require an \x27html\x27 field with SVG content." },
    { name := "update_template",
      description := "Update an existing template. IMPORTANT: Each layer must have a \x27layer\x27 field (unique identifier), not \x27name\x27. Valid types: \x27text\x27, \x27image\x27, \x27shape\x27, \x27rating\x27." },
    { name := "clone_template",
      description := "Create a copy of an existing template" },
    { name := "delete_template",
      description := "Delete a template" },
    { name := "list_template_renders",
      description := "List all renders created from a specific template" },
    { name := "list_folders",
      description := "List all folders in the account" },
    { name := "create_folder",
      description := "Create a new folder to organize templates" },
    { name := "update_folder",
      description := "Update a folder\x27s name" },
    { name := "delete_folder",
      description := "Delete a folder" },
    { name := "list_uploads",
      description := "List all uploaded assets (images, videos)" },
    { name := "create_upload",
      description := "Upload a file from a URL" },
    { name := "delete_upload",
      description := "Delete an uploaded asset" },
    { name := "list_fonts",
      description := "List all custom fonts uploaded to the account" },
    { name := "upload_font",
      description := "Upload a custom font from a URL" },
    { name := "delete_font",
      description := "Delete a custom font" },
    { name := "get_account",
      description := "Get account information including API usage and quota" } ]

/-- The names of the registered tools (= the names the dispatch switch
handles). -/
def toolNames : List String := toolsRegistry.map ToolEntry.name

/-- The folder-management tool names hidden when a folder scope is active. -/
def hiddenToolNames (folderActive : Bool) : List String :=
  if folderActive then ["list_folders", "create_folder", "update_folder", "delete_folder"]
  else []

/-- The scope label interpolated into the rewritten descriptions. -/
def scopeLabel (folderId externalId : Option String) : String :=
  if jsOptTruthy folderId && jsOptTruthy externalId then "the configured folder and external ID"
  else if jsOptTruthy folderId then "the configured folder"
  else "the configured external ID"

/-- The per-entry description rewrite applied under an active scope. -/
def relabelTool (lbl : String) (t : ToolEntry) : ToolEntry :=
  if t.name == "list_templates" then
    { name := t.name,
      description := "List templates in " ++ lbl ++ ". Use this to find template IDs for rendering." }
  else if t.name == "list_renders" then
    { name := t.name, description := "List renders in " ++ lbl }
  else t

/-- The ListToolsRequestSchema handler: the full registry when no scope is
configured; otherwise the registry with folder-management tools hidden
(only when a folder is configured) and the two listing descriptions
rewritten to mention the active scope. -/
def listTools (scope : Scope) : List ToolEntry :=
  if !jsOptTruthy scope.folderId && !jsOptTruthy scope.externalId then toolsRegistry
  else
    let hidden := hiddenToolNames (jsOptTruthy scope.folderId)
    let lbl := scopeLabel scope.folderId scope.externalId
    (toolsRegistry.filter (fun t => !hidden.contains t.name)).map (relabelTool lbl)

/-- The three module-level session variables (`currentApiKey`,
`currentFolderId`, `currentExternalId`); `none` models the JavaScript
value null they are initialised to. -/
structure SessionState where
  currentApiKey : Option String
  currentFolderId : Option String
  currentExternalId : Option String
deriving DecidableEq

/-- The process environment variables the scope getters fall back to. -/
structure Env where
  apiKeyVar : Option String
  folderIdVar : Option String
  externalIdVar : Option String
deriving DecidableEq

/-- `getApiKey()`: the session key when truthy, else the environment key or
the empty string. -/
def getApiKey (env : Env) (st : SessionState) : String :=
  if jsOptTruthy st.currentApiKey then st.currentApiKey.getD ""
  else if jsOptTruthy env.apiKeyVar then env.apiKeyVar.getD ""
  else ""

/-- `setApiKey(apiKey)`. -/
def setApiKey (apiKey : String) (st : SessionState) : SessionState :=
  { st with currentApiKey := some apiKey }

/-- `getFolderId()`: the session folder id when truthy, else the
environment folder id or null. -/
def getFolderId (env : Env) (st : SessionState) : Option String :=
  if jsOptTruthy st.currentFolderId then st.currentFolderId
  else if jsOptTruthy env.folderIdVar then env.folderIdVar
  else none

/-- `setFolderId(folderId)`. -/
def setFolderId (folderId : String) (st : SessionState) : SessionState :=
  { st with currentFolderId := some folderId }

/-- `getExternalId()`: the session external id when truthy, else the
environment external id or null. -/
def getExternalId (env : Env) (st : SessionState) : Option String :=
  if jsOptTruthy st.currentExternalId then st.currentExternalId
  else if jsOptTruthy env.externalIdVar then env.externalIdVar
  else none

/-- `setExternalId(externalId)`. -/
def setExternalId (externalId : String) (st : SessionState) : SessionState :=
  { st with currentExternalId := some externalId }

/-- The Session Scope a tool call dispatched now would run under. -/
def resolveScope (env : Env) (st : SessionState) : Scope :=
  { apiKey := getApiKey env st,
    folderId := getFolderId env st,
    externalId := getExternalId env st }

/-- An incoming HTTP request as seen by the scope-extraction code in
`startHttpMode`: the URL path, the apiKey/folderId/externalId query
parameters (`none` when absent, as `searchParams.get` returns null) and the
Authorization header. -/
structure HttpRequest where
  pathname : String
  apiKeyParam : Option String
  folderIdParam : Option String
  externalIdParam : Option String
  authHeader : Option String
deriving DecidableEq

/-- Whether a path is served by the MCP endpoint branch. -/
def isMcpPath (p : String) : Bool :=
  p == "/mcp" || p == "/sse" || p == "/"

/-- API key extraction for an MCP request: the apiKey query parameter, or,
when that is falsy, the token of a `Bearer ` Authorization header. -/
def extractApiKey (req : HttpRequest) : Option String :=
  if jsOptTruthy req.apiKeyParam then req.apiKeyParam
  else
    match req.authHeader with
    | some h => if h.startsWith "Bearer " then some (h.drop 7) else req.apiKeyParam
    | none => req.apiKeyParam

/-- The session-state update the MCP branch performs before handing the
request to the transport: the API key is always written (cleared to the
empty string when none was supplied); the folder id and external id are
written only when the corresponding query parameter is truthy. -/
def mcpUpdateScope (req : HttpRequest) (st : SessionState) : SessionState :=
  let apiKey := extractApiKey req
  let st := if jsOptTruthy apiKey then setApiKey (apiKey.getD "") st else setApiKey "" st
  let st := if jsOptTruthy req.folderIdParam then setFolderId (req.folderIdParam.getD "") st else st
  let st := if jsOptTruthy req.externalIdParam then setExternalId (req.externalIdParam.getD "") st else st
  st

/-- The effect one incoming HTTP request has on the session state: only
requests on an MCP path touch it. -/
def httpScopeStep (req : HttpRequest) (st : SessionState) : SessionState :=
  if isMcpPath req.pathname then mcpUpdateScope req st else st

/-- The GET request both scope validators issue for a template id. -/
def templateFetchCall (tid : String) : RestCall :=
  { method := "GET", path := "/v1/template/" ++ tid, body := none, queryParams := [] }

/-- The keys of a request body, in order. -/
def recordKeys (r : JsRecord) : List String := r.map Prod.fst

/-- The keys of a query-parameter list, in order. -/
def paramKeys (p : List (String × String)) : List String := p.map Prod.fst

/-- The needle occurs as a contiguous substring of the haystack. -/
def strContains (hay needle : String) : Prop :=
  ∃ p q : String, hay = p ++ needle ++ q

/-- Modelled from the spec: the downstream service attributes of one
template relevant to scoping — its folder attachment and its external id.
The rendering service itself is an external collaborator (spec section 1),
so its state is modelled only as far as the spec describes it. -/
structure TemplateRec where
  folder : Option String
  ext : Option String

/-- Modelled from the spec: the downstream state, one attribute record per
template id. -/
def DownstreamState := String → TemplateRec

/-- Modelled from the spec: the effect of the folder-attach request
(`PUT /v1/folder/folderId/template/templateId`) on the downstream state —
the template now carries the folder attribute (spec section 4.1,
`moveTemplateToFolder`). -/
def moveTemplateEffect (w : DownstreamState) (tid f : String) : DownstreamState :=
  fun x => if x = tid then { folder := some f, ext := (w tid).ext } else w x

/-- Modelled from the spec: the effect of the external-id update request
(`PUT /v1/template/templateId` with an externalId body) on the downstream
state (spec section 4.1). -/
def setExternalIdEffect (w : DownstreamState) (tid e : String) : DownstreamState :=
  fun x => if x = tid then { folder := (w x).folder, ext := some e } else w x

/-- Modelled from the spec: a folder-scoped listing returns the templates
whose folder attribute equals the configured folder (spec sections 4.1
and 8). -/
def folderScopedListing (w : DownstreamState) (f : String) (ids : List String) : List String :=
  ids.filter (fun t => (w t).folder == some f)

/-- Modelled from the spec: an external-id-scoped listing returns the
templates whose external id attribute equals the configured external id
(spec sections 4.1 and 8). -/
def externalScopedListing (w : DownstreamState) (e : String) (ids : List String) : List String :=
  ids.filter (fun t => (w t).ext == some e)

/-- A downstream world in which every template id exists and lies in folder
F with external id E: used to exercise the handlers on concrete inputs. -/
def dsInScope : Downstream := fun c =>
  if c.method == "GET" && c.path == "/v1/template/t1" then
    ApiResult.json (JsValue.objV [("folderId", JsValue.strV "F"), ("externalId", JsValue.strV "E")])
  else ApiResult.empty

/-- A downstream world in which the fetched template lies in folder F but
carries external id OTHER. -/
def dsWrongExternal : Downstream := fun c =>
  if c.method == "GET" && c.path == "/v1/template/t1" then
    ApiResult.json (JsValue.objV [("folderId", JsValue.strV "F"), ("externalId", JsValue.strV "OTHER")])
  else ApiResult.empty

/-- A downstream world in which every request fails with status 404 and
body text `not found`. -/
def dsMissing : Downstream := fun _ => ApiResult.err 404 "not found"

/-- A downstream world in which the fetched template exists but lies in
folder OTHER. -/
def dsOutOfScope : Downstream := fun _ =>
  ApiResult.json (JsValue.objV [("folderId", JsValue.strV "OTHER")])

/-- A downstream world for exercising creation and cloning: creating a
template returns id n1, fetching template t1 succeeds inside folder F with
external id E, and cloning t1 returns id c1. -/
def dsCreation : Downstream := fun c =>
  if c.method == "POST" && c.path == "/v1/template" then
    ApiResult.json (JsValue.objV [("id", JsValue.strV "n1")])
  else if c.method == "GET" && c.path == "/v1/template/t1" then
    ApiResult.json (JsValue.objV [("folderId", JsValue.strV "F"), ("externalId", JsValue.strV "E")])
  else if c.method == "POST" && c.path == "/v1/template/t1/clone" then
    ApiResult.json (JsValue.objV [("id", JsValue.strV "c1")])
  else ApiResult.empty

/-- The initial session state: all three variables null. -/
def stInit : SessionState :=
  { currentApiKey := none, currentFolderId := none, currentExternalId := none }

/-- An environment defining none of the three variables. -/
def envNone : Env :=
  { apiKeyVar := none, folderIdVar := none, externalIdVar := none }

/-- An environment defining only TEMPLATED_API_KEY. -/
def envWithKey : Env :=
  { apiKeyVar := some "envkey", folderIdVar := none, externalIdVar := none }

/-- An MCP request carrying an API key, a folder id and an external id. -/
def reqScoped : HttpRequest :=
  { pathname := "/mcp", apiKeyParam := some "k1", folderIdParam := some "F1",
    externalIdParam := some "E1", authHeader := none }

/-- An MCP request carrying no credentials and no scope parameters. -/
def reqBare : HttpRequest :=
  { pathname := "/mcp", apiKeyParam := none, folderIdParam := none,
    externalIdParam := none, authHeader := none }

theorem recordKeys_nil : recordKeys [] = [] := rfl

theorem recordKeys_cons (kv : String × JsValue) (r : JsRecord) :
    recordKeys (kv :: r) = kv.1 :: recordKeys r := rfl

theorem paramKeys_nil : paramKeys [] = [] := rfl

theorem paramKeys_cons (kv : String × String) (p : List (String × String)) :
    paramKeys (kv :: p) = kv.1 :: paramKeys p := rfl

theorem jsOptTruthy_some {o : Option String} (h : jsOptTruthy o = true) :
    o = some (o.getD "") := by
  cases o with
  | none => simp [jsOptTruthy] at h
  | some s => rfl

theorem mem_recordKeys_addIf {k : String} {b : JsRecord} {c : Bool} {kk : String} {v : JsValue} :
    k ∈ recordKeys (addIf b c kk v) ↔ k ∈ recordKeys b ∨ (c = true ∧ k = kk) := by
  cases c <;> simp [addIf, recordKeys]

theorem mem_paramKeys_addParamIf {k : String} {p : List (String × String)} {c : Bool} {kk v : String} :
    k ∈ paramKeys (addParamIf p c kk v) ↔ k ∈ paramKeys p ∨ (c = true ∧ k = kk) := by
  cases c <;> simp [addParamIf, paramKeys]

/-- C2 (corrected): handling an MCP-path request always overwrites the
session API key — to the supplied key when one is given, otherwise to the
empty string — but overwrites the folder id and the external id only when
the corresponding query parameter is present and non-empty; a request
carrying no folderId or externalId parameter is dispatched with the values
of those fields carried over from earlier requests. -/
theorem c2_scope_update_amended (req : HttpRequest) (st : SessionState)
    (hmcp : isMcpPath req.pathname = true) :
    ((httpScopeStep req st).currentApiKey =
        some (if jsOptTruthy (extractApiKey req) then (extractApiKey req).getD "" else ""))
    ∧ (jsOptTruthy req.folderIdParam = false →
        (httpScopeStep req st).currentFolderId = st.currentFolderId)
    ∧ (jsOptTruthy req.folderIdParam = true →
        (httpScopeStep req st).currentFolderId = req.folderIdParam)
    ∧ (jsOptTruthy req.externalIdParam = false →
        (httpScopeStep req st).currentExternalId = st.currentExternalId)
    ∧ (jsOptTruthy req.externalIdParam = true →
        (httpScopeStep req st).currentExternalId = req.externalIdParam) := by
  have hstep : httpScopeStep req st = mcpUpdateScope req st := by
    simp [httpScopeStep, hmcp]
  refine ⟨?_, ?_, ?_, ?_, ?_⟩ <;> rw [hstep] <;> unfold mcpUpdateScope
  · cases hk : jsOptTruthy (extractApiKey req) <;>
    cases hf : jsOptTruthy req.folderIdParam <;>
    cases hx : jsOptTruthy req.externalIdParam <;>
      simp [hk, hf, hx, setApiKey, setFolderId, setExternalId]
  · intro hf
    cases hk : jsOptTruthy (extractApiKey req) <;>
    cases hx : jsOptTruthy req.externalIdParam <;>
      simp [hk, hf, hx, setApiKey, setFolderId, setExternalId]
  · intro hf
    have hsome := (jsOptTruthy_some hf).symm
    cases hk : jsOptTruthy (extractApiKey req) <;>
    cases hx : jsOptTruthy req.externalIdParam <;>
      simp [hk, hf, hx, setApiKey, setFolderId, setExternalId, hsome]
  · intro hx
    cases hk : jsOptTruthy (extractApiKey req) <;>
    cases hf : jsOptTruthy req.folderIdParam <;>
      simp [hk, hf, hx, setApiKey, setFolderId, setExternalId]
  · intro hx
    have hsome := (jsOptTruthy_some hx).symm
    cases hk : jsOptTruthy (extractApiKey req) <;>
    cases hf : jsOptTruthy req.folderIdParam <;>
      simp [hk, hf, hx, setApiKey, setFolderId, setExternalId, hsome]

/-- C2 witness: concrete instance of the amended overwrite semantics. -/
theorem c2_witness :
    (httpScopeStep reqBare stInit).currentApiKey = some ""
    ∧ (httpScopeStep reqBare stInit).currentFolderId = stInit.currentFolderId
    ∧ (httpScopeStep reqScoped stInit).currentFolderId = some "F1" :=
  ⟨(c2_scope_update_amended reqBare stInit (by decide)).1,
   (c2_scope_update_amended reqBare stInit (by decide)).2.1 (by decide),
   (c2_scope_update_amended reqScoped stInit (by decide)).2.2.1 (by decide)⟩

/-- C2 counterexample: after a request configured folder F1 and external id
E1, a second MCP request carrying no folderId/externalId parameter is
dispatched with those values carried over, not absent — refuting that the
whole Session Scope triple is overwritten from each request. -/
theorem c2_counterexample :
    httpScopeStep reqBare (httpScopeStep reqScoped stInit) =
      { currentApiKey := some "", currentFolderId := some "F1", currentExternalId := some "E1" }
    ∧ getFolderId envNone (httpScopeStep reqBare (httpScopeStep reqScoped stInit)) = some "F1"
    ∧ getExternalId envNone (httpScopeStep reqBare (httpScopeStep reqScoped stInit)) = some "E1"
    ∧ ¬ (httpScopeStep reqBare (httpScopeStep reqScoped stInit)).currentFolderId = none := by
  decide

/-- C9 (confirmed): when TEMPLATED_API_KEY is set in the environment, an
MCP request carrying no API key clears the session key to the empty
string, which getApiKey treats as falsy and falls back to the environment
key — so a subsequent downstream request is issued under the environment
credential instead of aborting with the missing-credential error. -/
theorem c9_env_key_fallback (env : Env) (st : SessionState) (req : HttpRequest)
    (k : String) (ds : Downstream)
    (henv : env.apiKeyVar = some k) (hk : k ≠ "")
    (hmcp : isMcpPath req.pathname = true)
    (hparam : req.apiKeyParam = none) (hauth : req.authHeader = none) :
    (httpScopeStep req st).currentApiKey = some ""
    ∧ getApiKey env (httpScopeStep req st) = k
    ∧ (apiRequest (resolveScope env (httpScopeStep req st)) ds "GET" "/v1/account" none []).1 =
        [{ method := "GET", path := "/v1/account", body := none, queryParams := [] }] := by
  have hex : extractApiKey req = none := by
    simp [extractApiKey, hparam, hauth, jsOptTruthy]
  have h1 : (httpScopeStep req st).currentApiKey = some "" := by
    simp only [httpScopeStep, hmcp, if_true, mcpUpdateScope, hex]
    cases hf : jsOptTruthy req.folderIdParam <;>
    cases hx : jsOptTruthy req.externalIdParam <;>
      simp [hf, hx, jsOptTruthy, setApiKey, setFolderId, setExternalId]
  have h2 : getApiKey env (httpScopeStep req st) = k := by
    simp [getApiKey, h1, jsOptTruthy, henv, hk]
  refine ⟨h1, h2, ?_⟩
  have hkey : (resolveScope env (httpScopeStep req st)).apiKey = k := h2
  unfold apiRequest
  rw [hkey, if_neg (by simp [hk])]
  cases ds { method := "GET", path := "/v1/account", body := attachBody "GET" none, queryParams := [] } <;>
    rfl

/-- C9 witness: concrete environment key ek, bare MCP request. -/
theorem c9_witness :
    (httpScopeStep reqBare stInit).currentApiKey = some ""
    ∧ getApiKey envWithKey (httpScopeStep reqBare stInit) = "envkey"
    ∧ (apiRequest (resolveScope envWithKey (httpScopeStep reqBare stInit))
        (fun _ => ApiResult.empty) "GET" "/v1/account" none []).1 =
        [{ method := "GET", path := "/v1/account", body := none, queryParams := [] }] :=
  c9_env_key_fallback envWithKey stInit reqBare "envkey" (fun _ => ApiResult.empty)
    rfl (by decide) (by decide) rfl rfl

/-- C10 (confirmed): the create_template body only ever contains the keys
name, width, height, layers and externalId, and the update_template body
only name, description, width, height and layers; the background and
duration arguments are never forwarded by either. -/
theorem c10_body_frame (scope : Scope) (args : JsRecord) (k : String) :
    (k ∈ recordKeys (createTemplateBody scope args) →
       k ∈ ["name", "width", "height", "layers", "externalId"])
    ∧ (k ∈ recordKeys (updateTemplateBody args) →
       k ∈ ["name", "description", "width", "height", "layers"])
    ∧ "background" ∉ recordKeys (createTemplateBody scope args)
    ∧ "duration" ∉ recordKeys (createTemplateBody scope args)
    ∧ "background" ∉ recordKeys (updateTemplateBody args)
    ∧ "duration" ∉ recordKeys (updateTemplateBody args) := by
  refine ⟨?_, ?_, ?_, ?_, ?_, ?_⟩ <;>
    simp [createTemplateBody, updateTemplateBody, mem_recordKeys_addIf,
      recordKeys_cons, recordKeys_nil] <;>
    tauto

/-- C10 witness: concrete create_template arguments carrying a background
field that is nevertheless not forwarded. -/
theorem c10_witness :
    "name" ∈ ["name", "width", "height", "layers", "externalId"]
    ∧ "background" ∉ recordKeys (createTemplateBody { apiKey := "k", folderId := none, externalId := none }
        [("name", JsValue.strV "t"), ("background", JsValue.strV "#ffffff")]) :=
  ⟨(c10_body_frame { apiKey := "k", folderId := none, externalId := none }
      [("name", JsValue.strV "t"), ("background", JsValue.strV "#ffffff")] "name").1 (by decide),
   (c10_body_frame { apiKey := "k", folderId := none, externalId := none }
      [("name", JsValue.strV "t"), ("background", JsValue.strV "#ffffff")] "name").2.2.1⟩

/-- C8 (corrected): every optional argument the caller omits is absent from
the outbound request body and query parameters — no null or empty field is
sent in its place — for every optional field of every tool EXCEPT host of
merge_renders, which is sent with the substituted default value true when
omitted. -/
theorem c8_optional_omitted_amended (scope : Scope) (args : JsRecord) (k : String) :
    (k ∈ ["format", "layers", "transparent", "duration", "fps", "flatten", "cmyk",
          "width", "height", "scale", "name", "background"] →
      rget args k = JsValue.undef → k ∉ recordKeys (createRenderBody args))
    ∧ (k ∈ ["page", "limit"] → rget args k = JsValue.undef →
        k ∉ paramKeys (listRendersParams scope args)
        ∧ k ∉ paramKeys (listTemplateRendersParams args)
        ∧ k ∉ paramKeys (listFoldersParams args)
        ∧ k ∉ paramKeys (listUploadsParams args)
        ∧ k ∉ paramKeys (listFontsParams args))
    ∧ (k ∈ ["query", "page", "limit", "width", "height", "tags", "includeLayers"] →
        rget args k = JsValue.undef → k ∉ paramKeys (listTemplatesParams scope args))
    ∧ (k ∈ ["name", "description", "width", "height", "layers"] →
        rget args k = JsValue.undef → k ∉ recordKeys (updateTemplateBody args))
    ∧ (rget args "replaceLayers" = JsValue.undef →
        "replaceLayers" ∉ paramKeys (updateTemplateParams args))
    ∧ (rget args "name" = JsValue.undef →
        "name" ∉ recordKeys (cloneTemplateBody args) ∧ "name" ∉ recordKeys (createUploadBody args))
    ∧ (rget args "layers" = JsValue.undef →
        "layers" ∉ recordKeys (createTemplateBody scope args))
    ∧ (rget args "host" = JsValue.undef →
        ("host", JsValue.boolV true) ∈ mergeRendersBody args) := by
  refine ⟨?_, ?_, ?_, ?_, ?_, ?_, ?_, ?_⟩
  · intro hk hu
    simp only [List.mem_cons, List.not_mem_nil, or_false] at hk
    rcases hk with rfl | rfl | rfl | rfl | rfl | rfl | rfl | rfl | rfl | rfl | rfl | rfl <;>
      simp [createRenderBody, mem_recordKeys_addIf, recordKeys_cons, recordKeys_nil,
        hu, jsTruthy]
  · intro hk hu
    simp only [List.mem_cons, List.not_mem_nil, or_false] at hk
    rcases hk with rfl | rfl <;>
      refine ⟨?_, ?_, ?_, ?_, ?_⟩ <;>
      simp [listRendersParams, listTemplateRendersParams, listFoldersParams,
        listUploadsParams, listFontsParams, mem_paramKeys_addParamIf,
        paramKeys_cons, paramKeys_nil, hu, isUndef]
  · intro hk hu
    simp only [List.mem_cons, List.not_mem_nil, or_false] at hk
    rcases hk with rfl | rfl | rfl | rfl | rfl | rfl | rfl <;>
      simp [listTemplatesParams, mem_paramKeys_addParamIf, paramKeys_cons,
        paramKeys_nil, hu, isUndef, jsTruthy]
  · intro hk hu
    simp only [List.mem_cons, List.not_mem_nil, or_false] at hk
    rcases hk with rfl | rfl | rfl | rfl | rfl <;>
      simp [updateTemplateBody, mem_recordKeys_addIf, recordKeys_cons,
        recordKeys_nil, hu, jsTruthy]
  · intro hu
    simp [updateTemplateParams, mem_paramKeys_addParamIf, paramKeys_cons,
      paramKeys_nil, hu, jsTruthy]
  · intro hu
    constructor <;>
      simp [cloneTemplateBody, createUploadBody, mem_recordKeys_addIf,
        recordKeys_cons, recordKeys_nil, hu, jsTruthy]
  · intro hu
    simp [createTemplateBody, mem_recordKeys_addIf, recordKeys_cons,
      recordKeys_nil, hu, jsTruthy]
  · intro hu
    simp [mergeRendersBody, hu, jsNullish]

/-- C8 counterexample: merge_renders invoked without the optional host
argument still sends a host field, with the substituted default true, in
the outbound request body — refuting the claim for host of merge_renders. -/
theorem c8_counterexample :
    rget [("render_ids", JsValue.arrV [JsValue.strV "r1"])] "host" = JsValue.undef
    ∧ mergeRendersBody [("render_ids", JsValue.arrV [JsValue.strV "r1"])] =
        [("ids", JsValue.arrV [JsValue.strV "r1"]), ("host", JsValue.boolV true)]
    ∧ "host" ∈ recordKeys (mergeRendersBody [("render_ids", JsValue.arrV [JsValue.strV "r1"])]) := by
  refine ⟨rfl, rfl, ?_⟩
  decide

/-- C8 witness: a concrete omitted optional argument (format of
create_render) is absent from the body, and the concrete host default. -/
theorem c8_witness :
    "format" ∉ recordKeys (createRenderBody [("template", JsValue.strV "t1")])
    ∧ ("host", JsValue.boolV true) ∈ mergeRendersBody [("render_ids", JsValue.arrV [])] :=
  ⟨(c8_optional_omitted_amended { apiKey := "k", folderId := none, externalId := none }
      [("template", JsValue.strV "t1")] "format").1 (by decide) rfl,
   (c8_optional_omitted_amended { apiKey := "k", folderId := none, externalId := none }
      [("render_ids", JsValue.arrV [])] "format").2.2.2.2.2.2.2 rfl⟩

theorem relabelTool_name (lbl : String) (t : ToolEntry) : (relabelTool lbl t).name = t.name := by
  unfold relabelTool
  split
  · rfl
  · split
    · rfl
    · rfl

/-- C5 (confirmed): with a folder scope configured, the tool listing
excludes exactly the four folder-management tools, includes every other
registered tool, and rewrites the descriptions of list_templates and
list_renders to mention the configured scope. -/
theorem c5_scoped_listing (scope : Scope) (hf : jsOptTruthy scope.folderId = true) :
    ((listTools scope).map ToolEntry.name =
      ["create_render", "get_render", "list_renders", "delete_render", "merge_renders",
       "list_templates", "get_template", "get_template_layers", "get_template_pages",
       "create_template", "update_template", "clone_template", "delete_template",
       "list_template_renders", "list_uploads", "create_upload", "delete_upload",
       "list_fonts", "upload_font", "delete_font", "get_account"])
    ∧ (∀ n, n ∈ ["list_folders", "create_folder", "update_folder", "delete_folder"] →
        n ∉ (listTools scope).map ToolEntry.name)
    ∧ ({ name := "list_templates",
         description := "List templates in " ++ scopeLabel scope.folderId scope.externalId ++
           ". Use this to find template IDs for rendering." } : ToolEntry) ∈ listTools scope
    ∧ ({ name := "list_renders",
         description := "List renders in " ++ scopeLabel scope.folderId scope.externalId } : ToolEntry)
        ∈ listTools scope
    ∧ (scopeLabel scope.folderId scope.externalId = "the configured folder"
        ∨ scopeLabel scope.folderId scope.externalId = "the configured folder and external ID") := by
  have hlt : listTools scope =
      (toolsRegistry.filter (fun t => !(hiddenToolNames true).contains t.name)).map
        (relabelTool (scopeLabel scope.folderId scope.externalId)) := by
    simp [listTools, hf]
  have hnames : (listTools scope).map ToolEntry.name =
      ["create_render", "get_render", "list_renders", "delete_render", "merge_renders",
       "list_templates", "get_template", "get_template_layers", "get_template_pages",
       "create_template", "update_template", "clone_template", "delete_template",
       "list_template_renders", "list_uploads", "create_upload", "delete_upload",
       "list_fonts", "upload_font", "delete_font", "get_account"] := by
    rw [hlt, List.map_map]
    have hcomp : (ToolEntry.name ∘ relabelTool (scopeLabel scope.folderId scope.externalId)) =
        ToolEntry.name :=
      funext (relabelTool_name (scopeLabel scope.folderId scope.externalId))
    rw [hcomp]
    decide
  refine ⟨hnames, ?_, ?_, ?_, ?_⟩
  · intro n hn
    rw [hnames]
    simp only [List.mem_cons, List.not_mem_nil, or_false] at hn
    rcases hn with rfl | rfl | rfl | rfl <;> decide
  · rw [hlt]
    have hmem : ToolEntry.mk "list_templates"
        "List all templates in the account. Use this to find template IDs for rendering." ∈
        toolsRegistry.filter (fun t => !(hiddenToolNames true).contains t.name) := by decide
    have h2 := List.mem_map_of_mem
      (relabelTool (scopeLabel scope.folderId scope.externalId)) hmem
    simpa [relabelTool] using h2
  · rw [hlt]
    have hmem : ToolEntry.mk "list_renders" "List all renders in the account" ∈
        toolsRegistry.filter (fun t => !(hiddenToolNames true).contains t.name) := by decide
    have h2 := List.mem_map_of_mem
      (relabelTool (scopeLabel scope.folderId scope.externalId)) hmem
    simpa [relabelTool] using h2
  · cases hx : jsOptTruthy scope.externalId
    · exact Or.inl (by simp [scopeLabel, hf, hx])
    · exact Or.inr (by simp [scopeLabel, hf, hx])

/-- C5 witness: concrete folder scope F. -/
theorem c5_witness :
    ((listTools { apiKey := "", folderId := some "F", externalId := none }).map ToolEntry.name =
      ["create_render", "get_render", "list_renders", "delete_render", "merge_renders",
       "list_templates", "get_template", "get_template_layers", "get_template_pages",
       "create_template", "update_template", "clone_template", "delete_template",
       "list_template_renders", "list_uploads", "create_upload", "delete_upload",
       "list_fonts", "upload_font", "delete_font", "get_account"])
    ∧ ({ name := "list_templates",
         description := "List templates in " ++ scopeLabel (some "F") none ++
           ". Use this to find template IDs for rendering." } : ToolEntry) ∈
        listTools { apiKey := "", folderId := some "F", externalId := none } :=
  ⟨(c5_scoped_listing { apiKey := "", folderId := some "F", externalId := none } (by decide)).1,
   (c5_scoped_listing { apiKey := "", folderId := some "F", externalId := none } (by decide)).2.2.1⟩

theorem unknown_tool_contains (n : String) :
    strContains ("Error: " ++ ("Unknown tool: " ++ n)) "Unknown tool" := by
  refine ⟨"Error: ", ": " ++ n, ?_⟩
  rw [String.append_assoc]
  congr 1

/-- C7 (confirmed): every failure in the four error classes — unknown tool
name, missing API key, downstream non-2xx response, scope violation — is
caught at the dispatch boundary and returned as an isError payload rather
than propagated; an unregistered tool name yields a text containing
Unknown tool, and a downstream 404 with body not found yields a text
containing both 404 and not found. -/
theorem c7_error_payloads (scope : Scope) (ds : Downstream) (args : JsRecord) (name : String) :
    (∀ calls e, handleToolCall scope ds name args = (calls, Except.error e) →
        callTool scope ds name args = { text := "Error: " ++ e, isError := true })
    ∧ (name ∉ toolNames →
        callTool scope ds name args =
          { text := "Error: " ++ ("Unknown tool: " ++ name), isError := true }
        ∧ strContains (callTool scope ds name args).text "Unknown tool")
    ∧ (scope.apiKey ≠ "" → (∀ c, ds c = ApiResult.err 404 "not found") →
        callTool scope ds "get_account" [] =
          { text := "Error: API error (404): not found", isError := true }
        ∧ strContains (callTool scope ds "get_account" []).text "404"
        ∧ strContains (callTool scope ds "get_account" []).text "not found")
    ∧ (scope.apiKey = "" →
        callTool scope ds "get_account" [] =
          { text := "Error: " ++ missingKeyMsg, isError := true }) := by
  refine ⟨?_, ?_, ?_, ?_⟩
  · intro calls e h
    simp [callTool, h]
  · intro h
    simp only [toolNames, toolsRegistry, List.map, List.mem_cons, List.not_mem_nil,
      or_false, not_or] at h
    obtain ⟨h1, h2, h3, h4, h5, h6, h7, h8, h9, h10, h11, h12, h13, h14, h15, h16, h17,
      h18, h19, h20, h21, h22, h23, h24, h25⟩ := h
    have hh : handleToolCall scope ds name args = ([], Except.error ("Unknown tool: " ++ name)) := by
      simp [handleToolCall, errRes, h1, h2, h3, h4, h5, h6, h7, h8, h9, h10, h11, h12,
        h13, h14, h15, h16, h17, h18, h19, h20, h21, h22, h23, h24, h25]
    have hpayload : callTool scope ds name args =
        { text := "Error: " ++ ("Unknown tool: " ++ name), isError := true } := by
      simp [callTool, hh]
    refine ⟨hpayload, ?_⟩
    rw [hpayload]
    exact unknown_tool_contains name
  · intro hk hds
    have hh : callTool scope ds "get_account" [] =
        { text := "Error: API error (404): not found", isError := true } := by
      simp [callTool, handleToolCall, apiRequest, hk, hds]
      decide
    refine ⟨hh, ?_, ?_⟩
    · rw [hh]
      exact ⟨"Error: API error (", "): not found", by decide⟩
    · rw [hh]
      exact ⟨"Error: API error (404): ", "", by decide⟩
  · intro hk0
    simp [callTool, handleToolCall, apiRequest, hk0, errRes]

/-- C7 witness: a concrete unknown tool name and a concrete downstream 404
with body not found. -/
theorem c7_witness :
    callTool { apiKey := "k", folderId := none, externalId := none } dsMissing "no_such_tool" [] =
      { text := "Error: " ++ ("Unknown tool: " ++ "no_such_tool"), isError := true }
    ∧ callTool { apiKey := "k", folderId := none, externalId := none } dsMissing "get_account" [] =
      { text := "Error: API error (404): not found", isError := true } :=
  ⟨((c7_error_payloads { apiKey := "k", folderId := none, externalId := none } dsMissing []
      "no_such_tool").2.1 (by decide)).1,
   ((c7_error_payloads { apiKey := "k", folderId := none, externalId := none } dsMissing []
      "get_account").2.2.1 (by decide) (fun _ => rfl)).1⟩

theorem apiRequest_json (scope : Scope) (ds : Downstream) (m p : String)
    (b : Option JsRecord) (qp : List (String × String)) (v : JsValue)
    (hk : scope.apiKey ≠ "")
    (hds : ds { method := m, path := p, body := attachBody m b, queryParams := qp } = ApiResult.json v) :
    apiRequest scope ds m p b qp =
      ([{ method := m, path := p, body := attachBody m b, queryParams := qp }], Except.ok v) := by
  unfold apiRequest
  rw [if_neg (by simp [hk]), hds]

theorem apiRequest_call_trace (scope : Scope) (ds : Downstream) (m p : String)
    (b : Option JsRecord) (qp : List (String × String)) (hk : scope.apiKey ≠ "") :
    ∃ r, apiRequest scope ds m p b qp =
      ([{ method := m, path := p, body := attachBody m b, queryParams := qp }], r) := by
  unfold apiRequest
  rw [if_neg (by simp [hk])]
  cases ds { method := m, path := p, body := attachBody m b, queryParams := qp } <;> exact ⟨_, rfl⟩

theorem validateInFolder_none (k tid : String) (eo : Option String) (ds : Downstream) :
    validateTemplateInFolder { apiKey := k, folderId := none, externalId := eo } ds tid =
      pureRes () := rfl

theorem validateByExternal_none (k tid : String) (fo : Option String) (ds : Downstream) :
    validateTemplateByExternalId { apiKey := k, folderId := fo, externalId := none } ds tid =
      pureRes () := rfl

theorem validateInFolder_run (k f tid : String) (eo : Option String) (ds : Downstream)
    (tv : JsValue) (hk : k ≠ "") (hf : f ≠ "")
    (hds : ds (templateFetchCall tid) = ApiResult.json tv) :
    validateTemplateInFolder { apiKey := k, folderId := some f, externalId := eo } ds tid =
      ([templateFetchCall tid],
        if jsEqStr (jsGet tv "folderId") f then Except.ok ()
        else Except.error "Template not found in the configured folder") := by
  simp only [validateTemplateInFolder]
  rw [if_neg (by simp [hf])]
  rw [apiRequest_json { apiKey := k, folderId := some f, externalId := eo } ds "GET"
    ("/v1/template/" ++ tid) none [] tv hk hds]
  cases hc : jsEqStr (jsGet tv "folderId") f <;>
    simp [bindRes, hc, pureRes, errRes, templateFetchCall, attachBody]

theorem validateByExternal_run (k e tid : String) (fo : Option String) (ds : Downstream)
    (tv : JsValue) (hk : k ≠ "") (he : e ≠ "")
    (hds : ds (templateFetchCall tid) = ApiResult.json tv) :
    validateTemplateByExternalId { apiKey := k, folderId := fo, externalId := some e } ds tid =
      ([templateFetchCall tid],
        if jsEqStr (jsGet tv "externalId") e then Except.ok ()
        else Except.error "Template not found for the configured external ID") := by
  simp only [validateTemplateByExternalId]
  rw [if_neg (by simp [he])]
  rw [apiRequest_json { apiKey := k, folderId := fo, externalId := some e } ds "GET"
    ("/v1/template/" ++ tid) none [] tv hk hds]
  cases hc : jsEqStr (jsGet tv "externalId") e <;>
    simp [bindRes, hc, pureRes, errRes, templateFetchCall, attachBody]

theorem moveToFolder_run (k f tid : String) (eo : Option String) (ds : Downstream)
    (hk : k ≠ "") (hf : f ≠ "") :
    ∃ r, moveTemplateToFolder { apiKey := k, folderId := some f, externalId := eo } ds tid =
      ([{ method := "PUT", path := "/v1/folder/" ++ f ++ "/template/" ++ tid,
          body := none, queryParams := [] }], r) := by
  simp only [moveTemplateToFolder]
  rw [if_neg (by simp [hf])]
  obtain ⟨r, hr⟩ := apiRequest_call_trace { apiKey := k, folderId := some f, externalId := eo } ds
    "PUT" ("/v1/folder/" ++ f ++ "/template/" ++ tid) none [] hk
  rw [hr]
  cases r with
  | error e2 => exact ⟨Except.error e2, by simp [bindRes, pureRes, attachBody]⟩
  | ok v => exact ⟨Except.ok (), by simp [bindRes, pureRes, attachBody]⟩

theorem handle_create_render (scope : Scope) (ds : Downstream) (args : JsRecord) :
    handleToolCall scope ds "create_render" args =
      bindRes (validateTemplateInFolder scope ds (jsToString (rget args "template"))) (fun _ =>
      bindRes (validateTemplateByExternalId scope ds (jsToString (rget args "template"))) (fun _ =>
      apiRequest scope ds "POST" "/v1/render" (some (createRenderBody args)) [])) := rfl

theorem handle_get_template (scope : Scope) (ds : Downstream) (args : JsRecord) :
    handleToolCall scope ds "get_template" args =
      bindRes (validateTemplateInFolder scope ds (jsToString (rget args "template_id"))) (fun _ =>
      bindRes (validateTemplateByExternalId scope ds (jsToString (rget args "template_id"))) (fun _ =>
      apiRequest scope ds "GET" ("/v1/template/" ++ jsToString (rget args "template_id")) none [])) := rfl

theorem handle_get_template_layers (scope : Scope) (ds : Downstream) (args : JsRecord) :
    handleToolCall scope ds "get_template_layers" args =
      bindRes (validateTemplateInFolder scope ds (jsToString (rget args "template_id"))) (fun _ =>
      bindRes (validateTemplateByExternalId scope ds (jsToString (rget args "template_id"))) (fun _ =>
      apiRequest scope ds "GET"
        ("/v1/template/" ++ jsToString (rget args "template_id") ++ "/layers") none [])) := rfl

theorem handle_get_template_pages (scope : Scope) (ds : Downstream) (args : JsRecord) :
    handleToolCall scope ds "get_template_pages" args =
      bindRes (validateTemplateInFolder scope ds (jsToString (rget args "template_id"))) (fun _ =>
      bindRes (validateTemplateByExternalId scope ds (jsToString (rget args "template_id"))) (fun _ =>
      apiRequest scope ds "GET"
        ("/v1/template/" ++ jsToString (rget args "template_id") ++ "/pages") none [])) := rfl

theorem handle_update_template (scope : Scope) (ds : Downstream) (args : JsRecord) :
    handleToolCall scope ds "update_template" args =
      bindRes (validateTemplateInFolder scope ds (jsToString (rget args "template_id"))) (fun _ =>
      bindRes (validateTemplateByExternalId scope ds (jsToString (rget args "template_id"))) (fun _ =>
      apiRequest scope ds "PUT" ("/v1/template/" ++ jsToString (rget args "template_id"))
        (some (updateTemplateBody args)) (updateTemplateParams args))) := rfl

theorem handle_clone_template (scope : Scope) (ds : Downstream) (args : JsRecord) :
    handleToolCall scope ds "clone_template" args =
      bindRes (validateTemplateInFolder scope ds (jsToString (rget args "template_id"))) (fun _ =>
      bindRes (validateTemplateByExternalId scope ds (jsToString (rget args "template_id"))) (fun _ =>
      bindRes (apiRequest scope ds "POST"
          ("/v1/template/" ++ jsToString (rget args "template_id") ++ "/clone")
          (some (cloneTemplateBody args)) []) (fun result =>
      bindRes (moveTemplateToFolder scope ds (jsToString (jsGet result "id"))) (fun _ =>
      if jsOptTruthy scope.externalId then
        bindRes (apiRequest scope ds "PUT" ("/v1/template/" ++ jsToString (jsGet result "id"))
            (some [("externalId", JsValue.strV (scope.externalId.getD ""))]) []) (fun _ =>
        pureRes result)
      else pureRes result)))) := rfl

theorem handle_delete_template (scope : Scope) (ds : Downstream) (args : JsRecord) :
    handleToolCall scope ds "delete_template" args =
      bindRes (validateTemplateInFolder scope ds (jsToString (rget args "template_id"))) (fun _ =>
      bindRes (validateTemplateByExternalId scope ds (jsToString (rget args "template_id"))) (fun _ =>
      apiRequest scope ds "DELETE"
        ("/v1/template/" ++ jsToString (rget args "template_id")) none [])) := rfl

theorem handle_list_template_renders (scope : Scope) (ds : Downstream) (args : JsRecord) :
    handleToolCall scope ds "list_template_renders" args =
      bindRes (validateTemplateInFolder scope ds (jsToString (rget args "template_id"))) (fun _ =>
      bindRes (validateTemplateByExternalId scope ds (jsToString (rget args "template_id"))) (fun _ =>
      apiRequest scope ds "GET"
        ("/v1/template/" ++ jsToString (rget args "template_id") ++ "/renders")
        none (listTemplateRendersParams args))) := rfl

theorem handle_create_template (scope : Scope) (ds : Downstream) (args : JsRecord) :
    handleToolCall scope ds "create_template" args =
      bindRes (apiRequest scope ds "POST" "/v1/template" (some (createTemplateBody scope args)) [])
        (fun result =>
      bindRes (moveTemplateToFolder scope ds (jsToString (jsGet result "id"))) (fun _ =>
      pureRes result)) := rfl

theorem handle_list_templates (scope : Scope) (ds : Downstream) (args : JsRecord) :
    handleToolCall scope ds "list_templates" args =
      apiRequest scope ds "GET"
        (if jsOptTruthy scope.folderId then "/v1/folder/" ++ scope.folderId.getD "" ++ "/templates"
         else "/v1/templates")
        none (listTemplatesParams scope args) := rfl

theorem handle_list_renders (scope : Scope) (ds : Downstream) (args : JsRecord) :
    handleToolCall scope ds "list_renders" args =
      apiRequest scope ds "GET"
        (if jsOptTruthy scope.folderId then "/v1/folder/" ++ scope.folderId.getD "" ++ "/renders"
         else "/v1/renders")
        none (listRendersParams scope args) := rfl

/-- C1 (confirmed): every template-targeting operation (create_render,
get_template, get_template_layers, get_template_pages, update_template,
clone_template, delete_template, list_template_renders) runs both scope
validators on the target template id before its own REST call; with both a
folder id and an external id configured, a folder mismatch aborts after
one validation fetch, an external-id mismatch aborts after two, and in
both abort cases the operation's own call is never issued; only a template
matching both attributes reaches the main call, which follows the two
validation fetches. -/
theorem c1_scope_gating (k f e tid : String) (ds : Downstream) (tv : JsValue)
    (argsR argsT : JsRecord)
    (hk : k ≠ "") (hf : f ≠ "") (he : e ≠ "")
    (haR : rget argsR "template" = JsValue.strV tid)
    (haT : rget argsT "template_id" = JsValue.strV tid)
    (hds : ds (templateFetchCall tid) = ApiResult.json tv) :
    (jsEqStr (jsGet tv "folderId") f = false →
      (handleToolCall { apiKey := k, folderId := some f, externalId := some e } ds
          "create_render" argsR =
        ([templateFetchCall tid], Except.error "Template not found in the configured folder"))
      ∧ (handleToolCall { apiKey := k, folderId := some f, externalId := some e } ds
          "get_template" argsT =
        ([templateFetchCall tid], Except.error "Template not found in the configured folder"))
      ∧ (handleToolCall { apiKey := k, folderId := some f, externalId := some e } ds
          "get_template_layers" argsT =
        ([templateFetchCall tid], Except.error "Template not found in the configured folder"))
      ∧ (handleToolCall { apiKey := k, folderId := some f, externalId := some e } ds
          "get_template_pages" argsT =
        ([templateFetchCall tid], Except.error "Template not found in the configured folder"))
      ∧ (handleToolCall { apiKey := k, folderId := some f, externalId := some e } ds
          "update_template" argsT =
        ([templateFetchCall tid], Except.error "Template not found in the configured folder"))
      ∧ (handleToolCall { apiKey := k, folderId := some f, externalId := some e } ds
          "clone_template" argsT =
        ([templateFetchCall tid], Except.error "Template not found in the configured folder"))
      ∧ (handleToolCall { apiKey := k, folderId := some f, externalId := some e } ds
          "delete_template" argsT =
        ([templateFetchCall tid], Except.error "Template not found in the configured folder"))
      ∧ (handleToolCall { apiKey := k, folderId := some f, externalId := some e } ds
          "list_template_renders" argsT =
        ([templateFetchCall tid], Except.error "Template not found in the configured folder")))
    ∧ (jsEqStr (jsGet tv "folderId") f = true → jsEqStr (jsGet tv "externalId") e = false →
      (handleToolCall { apiKey := k, folderId := some f, externalId := some e } ds
          "create_render" argsR =
        ([templateFetchCall tid, templateFetchCall tid],
          Except.error "Template not found for the configured external ID"))
      ∧ (handleToolCall { apiKey := k, folderId := some f, externalId := some e } ds
          "get_template" argsT =
        ([templateFetchCall tid, templateFetchCall tid],
          Except.error "Template not found for the configured external ID"))
      ∧ (handleToolCall { apiKey := k, folderId := some f, externalId := some e } ds
          "get_template_layers" argsT =
        ([templateFetchCall tid, templateFetchCall tid],
          Except.error "Template not found for the configured external ID"))
      ∧ (handleToolCall { apiKey := k, folderId := some f, externalId := some e } ds
          "get_template_pages" argsT =
        ([templateFetchCall tid, templateFetchCall tid],
          Except.error "Template not found for the configured external ID"))
      ∧ (handleToolCall { apiKey := k, folderId := some f, externalId := some e } ds
          "update_template" argsT =
        ([templateFetchCall tid, templateFetchCall tid],
          Except.error "Template not found for the configured external ID"))
      ∧ (handleToolCall { apiKey := k, folderId := some f, externalId := some e } ds
          "clone_template" argsT =
        ([templateFetchCall tid, templateFetchCall tid],
          Except.error "Template not found for the configured external ID"))
      ∧ (handleToolCall { apiKey := k, folderId := some f, externalId := some e } ds
          "delete_template" argsT =
        ([templateFetchCall tid, templateFetchCall tid],
          Except.error "Template not found for the configured external ID"))
      ∧ (handleToolCall { apiKey := k, folderId := some f, externalId := some e } ds
          "list_template_renders" argsT =
        ([templateFetchCall tid, templateFetchCall tid],
          Except.error "Template not found for the configured external ID")))
    ∧ (jsEqStr (jsGet tv "folderId") f = true → jsEqStr (jsGet tv "externalId") e = true →
      (∃ r, handleToolCall { apiKey := k, folderId := some f, externalId := some e } ds
          "create_render" argsR =
        ([templateFetchCall tid, templateFetchCall tid,
          { method := "POST", path := "/v1/render", body := some (createRenderBody argsR),
            queryParams := [] }], r))
      ∧ (∃ r, handleToolCall { apiKey := k, folderId := some f, externalId := some e } ds
          "get_template" argsT =
        ([templateFetchCall tid, templateFetchCall tid,
          { method := "GET", path := "/v1/template/" ++ tid, body := none, queryParams := [] }], r))
      ∧ (∃ r, handleToolCall { apiKey := k, folderId := some f, externalId := some e } ds
          "get_template_layers" argsT =
        ([templateFetchCall tid, templateFetchCall tid,
          { method := "GET", path := "/v1/template/" ++ tid ++ "/layers", body := none,
            queryParams := [] }], r))
      ∧ (∃ r, handleToolCall { apiKey := k, folderId := some f, externalId := some e } ds
          "get_template_pages" argsT =
        ([templateFetchCall tid, templateFetchCall tid,
          { method := "GET", path := "/v1/template/" ++ tid ++ "/pages", body := none,
            queryParams := [] }], r))
      ∧ (∃ r, handleToolCall { apiKey := k, folderId := some f, externalId := some e } ds
          "update_template" argsT =
        ([templateFetchCall tid, templateFetchCall tid,
          { method := "PUT", path := "/v1/template/" ++ tid,
            body := some (updateTemplateBody argsT),
            queryParams := updateTemplateParams argsT }], r))
      ∧ (∃ rest r, handleToolCall { apiKey := k, folderId := some f, externalId := some e } ds
          "clone_template" argsT =
        ([templateFetchCall tid, templateFetchCall tid,
          { method := "POST", path := "/v1/template/" ++ tid ++ "/clone",
            body := some (cloneTemplateBody argsT), queryParams := [] }] ++ rest, r))
      ∧ (∃ r, handleToolCall { apiKey := k, folderId := some f, externalId := some e } ds
          "delete_template" argsT =
        ([templateFetchCall tid, templateFetchCall tid,
          { method := "DELETE", path := "/v1/template/" ++ tid, body := none,
            queryParams := [] }], r))
      ∧ (∃ r, handleToolCall { apiKey := k, folderId := some f, externalId := some e } ds
          "list_template_renders" argsT =
        ([templateFetchCall tid, templateFetchCall tid,
          { method := "GET", path := "/v1/template/" ++ tid ++ "/renders", body := none,
            queryParams := listTemplateRendersParams argsT }], r))) := by
  refine ⟨?_, ?_, ?_⟩
  · intro hfol
    refine ⟨?_, ?_, ?_, ?_, ?_, ?_, ?_, ?_⟩ <;>
    · simp only [handle_create_render, handle_get_template, handle_get_template_layers,
        handle_get_template_pages, handle_update_template, handle_clone_template,
        handle_delete_template, handle_list_template_renders, haR, haT, jsToString]
      rw [validateInFolder_run k f tid (some e) ds tv hk hf hds]
      simp [bindRes, hfol]
  · intro hfol hext
    refine ⟨?_, ?_, ?_, ?_, ?_, ?_, ?_, ?_⟩ <;>
    · simp only [handle_create_render, handle_get_template, handle_get_template_layers,
        handle_get_template_pages, handle_update_template, handle_clone_template,
        handle_delete_template, handle_list_template_renders, haR, haT, jsToString]
      rw [validateInFolder_run k f tid (some e) ds tv hk hf hds,
        validateByExternal_run k e tid (some f) ds tv hk he hds]
      simp [bindRes, hfol, hext]
  · intro hfol hext
    refine ⟨?_, ?_, ?_, ?_, ?_, ?_, ?_, ?_⟩
    · obtain ⟨r, hr⟩ := apiRequest_call_trace
        { apiKey := k, folderId := some f, externalId := some e } ds "POST" "/v1/render"
        (some (createRenderBody argsR)) [] hk
      refine ⟨r, ?_⟩
      simp only [handle_create_render, haR, jsToString]
      rw [validateInFolder_run k f tid (some e) ds tv hk hf hds,
        validateByExternal_run k e tid (some f) ds tv hk he hds, hr]
      simp [bindRes, hfol, hext, attachBody]
    · obtain ⟨r, hr⟩ := apiRequest_call_trace
        { apiKey := k, folderId := some f, externalId := some e } ds "GET"
        ("/v1/template/" ++ tid) none [] hk
      refine ⟨r, ?_⟩
      simp only [handle_get_template, haT, jsToString]
      rw [validateInFolder_run k f tid (some e) ds tv hk hf hds,
        validateByExternal_run k e tid (some f) ds tv hk he hds, hr]
      simp [bindRes, hfol, hext, attachBody]
    · obtain ⟨r, hr⟩ := apiRequest_call_trace
        { apiKey := k, folderId := some f, externalId := some e } ds "GET"
        ("/v1/template/" ++ tid ++ "/layers") none [] hk
      refine ⟨r, ?_⟩
      simp only [handle_get_template_layers, haT, jsToString]
      rw [validateInFolder_run k f tid (some e) ds tv hk hf hds,
        validateByExternal_run k e tid (some f) ds tv hk he hds, hr]
      simp [bindRes, hfol, hext, attachBody]
    · obtain ⟨r, hr⟩ := apiRequest_call_trace
        { apiKey := k, folderId := some f, externalId := some e } ds "GET"
        ("/v1/template/" ++ tid ++ "/pages") none [] hk
      refine ⟨r, ?_⟩
      simp only [handle_get_template_pages, haT, jsToString]
      rw [validateInFolder_run k f tid (some e) ds tv hk hf hds,
        validateByExternal_run k e tid (some f) ds tv hk he hds, hr]
      simp [bindRes, hfol, hext, attachBody]
    · obtain ⟨r, hr⟩ := apiRequest_call_trace
        { apiKey := k, folderId := some f, externalId := some e } ds "PUT"
        ("/v1/template/" ++ tid) (some (updateTemplateBody argsT)) (updateTemplateParams argsT) hk
      refine ⟨r, ?_⟩
      simp only [handle_update_template, haT, jsToString]
      rw [validateInFolder_run k f tid (some e) ds tv hk hf hds,
        validateByExternal_run k e tid (some f) ds tv hk he hds, hr]
      simp [bindRes, hfol, hext, attachBody]
    · obtain ⟨rc, hrc⟩ := apiRequest_call_trace
        { apiKey := k, folderId := some f, externalId := some e } ds "POST"
        ("/v1/template/" ++ tid ++ "/clone") (some (cloneTemplateBody argsT)) [] hk
      cases rc with
      | error ec =>
        refine ⟨[], Except.error ec, ?_⟩
        simp only [handle_clone_template, haT, jsToString]
        rw [validateInFolder_run k f tid (some e) ds tv hk hf hds,
          validateByExternal_run k e tid (some f) ds tv hk he hds, hrc]
        simp [bindRes, hfol, hext, attachBody]
      | ok cv =>
        obtain ⟨rm, hrm⟩ := moveToFolder_run k f (jsToString (jsGet cv "id")) (some e) ds hk hf
        cases rm with
        | error em =>
          refine ⟨[RestCall.mk "PUT"
            ("/v1/folder/" ++ f ++ "/template/" ++ jsToString (jsGet cv "id")) none []],
            Except.error em, ?_⟩
          simp only [handle_clone_template, haT, jsToString]
          rw [validateInFolder_run k f tid (some e) ds tv hk hf hds,
            validateByExternal_run k e tid (some f) ds tv hk he hds, hrc]
          simp [bindRes, hfol, hext, he, jsOptTruthy, attachBody, hrm, pureRes]
        | ok _ =>
          obtain ⟨rs, hrs⟩ := apiRequest_call_trace
            { apiKey := k, folderId := some f, externalId := some e } ds "PUT"
            ("/v1/template/" ++ jsToString (jsGet cv "id"))
            (some [("externalId", JsValue.strV e)]) [] hk
          cases rs with
          | error es =>
            refine ⟨[RestCall.mk "PUT"
              ("/v1/folder/" ++ f ++ "/template/" ++ jsToString (jsGet cv "id")) none [],
              RestCall.mk "PUT" ("/v1/template/" ++ jsToString (jsGet cv "id"))
                (some [("externalId", JsValue.strV e)]) []],
              Except.error es, ?_⟩
            simp only [handle_clone_template, haT, jsToString]
            rw [validateInFolder_run k f tid (some e) ds tv hk hf hds,
              validateByExternal_run k e tid (some f) ds tv hk he hds, hrc]
            simp [bindRes, hfol, hext, he, jsOptTruthy, attachBody, hrm, hrs, pureRes]
          | ok _ =>
            refine ⟨[RestCall.mk "PUT"
              ("/v1/folder/" ++ f ++ "/template/" ++ jsToString (jsGet cv "id")) none [],
              RestCall.mk "PUT" ("/v1/template/" ++ jsToString (jsGet cv "id"))
                (some [("externalId", JsValue.strV e)]) []],
              Except.ok cv, ?_⟩
            simp only [handle_clone_template, haT, jsToString]
            rw [validateInFolder_run k f tid (some e) ds tv hk hf hds,
              validateByExternal_run k e tid (some f) ds tv hk he hds, hrc]
            simp [bindRes, hfol, hext, he, jsOptTruthy, attachBody, hrm, hrs, pureRes]
    · obtain ⟨r, hr⟩ := apiRequest_call_trace
        { apiKey := k, folderId := some f, externalId := some e } ds "DELETE"
        ("/v1/template/" ++ tid) none [] hk
      refine ⟨r, ?_⟩
      simp only [handle_delete_template, haT, jsToString]
      rw [validateInFolder_run k f tid (some e) ds tv hk hf hds,
        validateByExternal_run k e tid (some f) ds tv hk he hds, hr]
      simp [bindRes, hfol, hext, attachBody]
    · obtain ⟨r, hr⟩ := apiRequest_call_trace
        { apiKey := k, folderId := some f, externalId := some e } ds "GET"
        ("/v1/template/" ++ tid ++ "/renders") none (listTemplateRendersParams argsT) hk
      refine ⟨r, ?_⟩
      simp only [handle_list_template_renders, haT, jsToString]
      rw [validateInFolder_run k f tid (some e) ds tv hk hf hds,
        validateByExternal_run k e tid (some f) ds tv hk he hds, hr]
      simp [bindRes, hfol, hext, attachBody]

/-- C1 witness: template t1 lies in folder F but carries external id OTHER;
with scope (F, E) configured, get_template aborts after the two validation
fetches with the external-id scope error and never issues its own call. -/
theorem c1_witness :
    handleToolCall { apiKey := "k", folderId := some "F", externalId := some "E" }
        dsWrongExternal "get_template" [("template_id", JsValue.strV "t1")] =
      ([templateFetchCall "t1", templateFetchCall "t1"],
        Except.error "Template not found for the configured external ID") :=
  ((c1_scope_gating "k" "F" "E" "t1" dsWrongExternal
      (JsValue.objV [("folderId", JsValue.strV "F"), ("externalId", JsValue.strV "OTHER")])
      [("template", JsValue.strV "t1")] [("template_id", JsValue.strV "t1")]
      (by decide) (by decide) (by decide) rfl rfl rfl).2.1 rfl rfl).2.1

theorem mem_addParamIf_self {p : List (String × String)} {c : Bool} {k v : String}
    (hc : c = true) : (k, v) ∈ addParamIf p c k v := by
  simp [addParamIf, hc]

/-- C3 (confirmed): under a configured folder scope, create_template issues
the creation call and then attaches the returned id to the configured
folder; clone_template, under folder and external-id scope, clones and
then attaches the clone to the folder and sets the configured external id
on it; and an object carrying the folder and external-id attributes these
two update calls establish is included in the corresponding scoped
listings of the downstream state model. -/
theorem c3_scoped_creation (k f : String) (eo : Option String) (ds : Downstream)
    (hk : k ≠ "") (hf : f ≠ "") :
    (∀ (args : JsRecord) (newv : JsValue) (newId : String),
      ds { method := "POST", path := "/v1/template",
           body := some (createTemplateBody { apiKey := k, folderId := some f, externalId := eo } args),
           queryParams := [] } = ApiResult.json newv →
      jsGet newv "id" = JsValue.strV newId →
      ∃ r, handleToolCall { apiKey := k, folderId := some f, externalId := eo } ds
          "create_template" args =
        ([{ method := "POST", path := "/v1/template",
            body := some (createTemplateBody { apiKey := k, folderId := some f, externalId := eo } args),
            queryParams := [] },
          { method := "PUT", path := "/v1/folder/" ++ f ++ "/template/" ++ newId,
            body := none, queryParams := [] }], r))
    ∧ (∀ (e tid cloneId : String) (argsT : JsRecord) (tv cv : JsValue),
        e ≠ "" →
        rget argsT "template_id" = JsValue.strV tid →
        ds (templateFetchCall tid) = ApiResult.json tv →
        jsEqStr (jsGet tv "folderId") f = true →
        jsEqStr (jsGet tv "externalId") e = true →
        ds { method := "POST", path := "/v1/template/" ++ tid ++ "/clone",
             body := some (cloneTemplateBody argsT), queryParams := [] } = ApiResult.json cv →
        jsGet cv "id" = JsValue.strV cloneId →
        ds { method := "PUT", path := "/v1/folder/" ++ f ++ "/template/" ++ cloneId,
             body := none, queryParams := [] } = ApiResult.empty →
        ∃ r, handleToolCall { apiKey := k, folderId := some f, externalId := some e } ds
            "clone_template" argsT =
          ([templateFetchCall tid, templateFetchCall tid,
            { method := "POST", path := "/v1/template/" ++ tid ++ "/clone",
              body := some (cloneTemplateBody argsT), queryParams := [] },
            { method := "PUT", path := "/v1/folder/" ++ f ++ "/template/" ++ cloneId,
              body := none, queryParams := [] },
            { method := "PUT", path := "/v1/template/" ++ cloneId,
              body := some [("externalId", JsValue.strV e)], queryParams := [] }], r))
    ∧ (∀ (w : DownstreamState) (ids : List String) (tid2 wf we : String),
        tid2 ∈ ids →
        tid2 ∈ folderScopedListing (setExternalIdEffect (moveTemplateEffect w tid2 wf) tid2 we) wf ids
        ∧ tid2 ∈ externalScopedListing (setExternalIdEffect (moveTemplateEffect w tid2 wf) tid2 we) we ids) := by
  refine ⟨?_, ?_, ?_⟩
  · intro args newv newId hdsP hid
    have hreq := apiRequest_json { apiKey := k, folderId := some f, externalId := eo } ds "POST"
      "/v1/template"
      (some (createTemplateBody { apiKey := k, folderId := some f, externalId := eo } args)) []
      newv hk (by simpa [attachBody] using hdsP)
    obtain ⟨rm, hrm⟩ := moveToFolder_run k f newId eo ds hk hf
    cases rm with
    | error em =>
      refine ⟨Except.error em, ?_⟩
      rw [handle_create_template, hreq]
      simp [bindRes, hid, jsToString, hrm, pureRes, attachBody]
    | ok u =>
      refine ⟨Except.ok newv, ?_⟩
      rw [handle_create_template, hreq]
      simp [bindRes, hid, jsToString, hrm, pureRes, attachBody]
  · intro e tid cloneId argsT tv cv he haT hds hfol hext hdsC hcid hdsM
    have hreqC := apiRequest_json { apiKey := k, folderId := some f, externalId := some e } ds
      "POST" ("/v1/template/" ++ tid ++ "/clone") (some (cloneTemplateBody argsT)) [] cv hk
      (by simpa [attachBody] using hdsC)
    have hmove : moveTemplateToFolder { apiKey := k, folderId := some f, externalId := some e }
        ds cloneId =
        ([{ method := "PUT", path := "/v1/folder/" ++ f ++ "/template/" ++ cloneId,
            body := none, queryParams := [] }], Except.ok ()) := by
      simp only [moveTemplateToFolder]
      rw [if_neg (by simp [hf])]
      unfold apiRequest
      rw [if_neg (by simp [hk])]
      simp only [attachBody]
      rw [hdsM]
      simp [bindRes, pureRes]
    obtain ⟨rs, hrs⟩ := apiRequest_call_trace
      { apiKey := k, folderId := some f, externalId := some e } ds "PUT"
      ("/v1/template/" ++ cloneId) (some [("externalId", JsValue.strV e)]) [] hk
    cases rs with
    | error es =>
      refine ⟨Except.error es, ?_⟩
      simp only [handle_clone_template, haT, jsToString]
      rw [validateInFolder_run k f tid (some e) ds tv hk hf hds,
        validateByExternal_run k e tid (some f) ds tv hk he hds, hreqC]
      simp [bindRes, hfol, hext, hcid, jsToString, hmove, hrs, pureRes, he, jsOptTruthy, attachBody]
    | ok sv =>
      refine ⟨Except.ok cv, ?_⟩
      simp only [handle_clone_template, haT, jsToString]
      rw [validateInFolder_run k f tid (some e) ds tv hk hf hds,
        validateByExternal_run k e tid (some f) ds tv hk he hds, hreqC]
      simp [bindRes, hfol, hext, hcid, jsToString, hmove, hrs, pureRes, he, jsOptTruthy, attachBody]
  · intro w ids tid2 wf we hmem
    constructor <;>
      simp [folderScopedListing, externalScopedListing, setExternalIdEffect, moveTemplateEffect,
        List.mem_filter, hmem]

/-- C3 witness: concrete creation under folder scope F — the creation call
is followed by the folder-attach call for the returned id n1. -/
theorem c3_witness :
    ∃ r, handleToolCall { apiKey := "k", folderId := some "F", externalId := some "E" } dsCreation
        "create_template"
        [("name", JsValue.strV "n"), ("width", JsValue.numV 100), ("height", JsValue.numV 50)] =
      ([{ method := "POST", path := "/v1/template",
          body := some (createTemplateBody { apiKey := "k", folderId := some "F", externalId := some "E" }
            [("name", JsValue.strV "n"), ("width", JsValue.numV 100), ("height", JsValue.numV 50)]),
          queryParams := [] },
        { method := "PUT", path := "/v1/folder/" ++ "F" ++ "/template/" ++ "n1",
          body := none, queryParams := [] }], r) :=
  (c3_scoped_creation "k" "F" (some "E") dsCreation (by decide) (by decide)).1
    [("name", JsValue.strV "n"), ("width", JsValue.numV 100), ("height", JsValue.numV 50)]
    (JsValue.objV [("id", JsValue.strV "n1")]) "n1" rfl rfl

/-- C4 (corrected): list_templates and list_renders route to the
folder-scoped listing path when a folder is configured and append the
configured external id as an externalId filter parameter; but
list_template_renders does not — it validates the target template against
the configured scopes and then issues the fixed template-renders path
whose query carries only page and limit. -/
theorem c4_list_scoping_amended (scope : Scope) (ds : Downstream) (args : JsRecord) :
    (∀ f, scope.folderId = some f → f ≠ "" → scope.apiKey ≠ "" →
      (∃ r, handleToolCall scope ds "list_templates" args =
        ([{ method := "GET", path := "/v1/folder/" ++ f ++ "/templates", body := none,
            queryParams := listTemplatesParams scope args }], r))
      ∧ (∃ r, handleToolCall scope ds "list_renders" args =
        ([{ method := "GET", path := "/v1/folder/" ++ f ++ "/renders", body := none,
            queryParams := listRendersParams scope args }], r)))
    ∧ (scope.folderId = none → scope.apiKey ≠ "" →
      (∃ r, handleToolCall scope ds "list_templates" args =
        ([{ method := "GET", path := "/v1/templates", body := none,
            queryParams := listTemplatesParams scope args }], r))
      ∧ (∃ r, handleToolCall scope ds "list_renders" args =
        ([{ method := "GET", path := "/v1/renders", body := none,
            queryParams := listRendersParams scope args }], r)))
    ∧ (∀ e, scope.externalId = some e → e ≠ "" →
        ("externalId", e) ∈ listTemplatesParams scope args
        ∧ ("externalId", e) ∈ listRendersParams scope args)
    ∧ (∀ kv, kv ∈ listTemplateRendersParams args → kv.1 = "page" ∨ kv.1 = "limit")
    ∧ (∀ (k2 tid : String), k2 ≠ "" → rget args "template_id" = JsValue.strV tid →
        ∀ (tv : JsValue), ds (templateFetchCall tid) = ApiResult.json tv →
        ∀ e, e ≠ "" → jsEqStr (jsGet tv "externalId") e = true →
        ∃ r, handleToolCall { apiKey := k2, folderId := none, externalId := some e } ds
            "list_template_renders" args =
          ([templateFetchCall tid,
            { method := "GET", path := "/v1/template/" ++ tid ++ "/renders", body := none,
              queryParams := listTemplateRendersParams args }], r)) := by
  refine ⟨?_, ?_, ?_, ?_, ?_⟩
  · intro f hfid hf hk
    have hpathT : (if jsOptTruthy scope.folderId then
        "/v1/folder/" ++ scope.folderId.getD "" ++ "/templates" else "/v1/templates") =
        "/v1/folder/" ++ f ++ "/templates" := by
      rw [hfid]; simp [jsOptTruthy, hf]
    have hpathR : (if jsOptTruthy scope.folderId then
        "/v1/folder/" ++ scope.folderId.getD "" ++ "/renders" else "/v1/renders") =
        "/v1/folder/" ++ f ++ "/renders" := by
      rw [hfid]; simp [jsOptTruthy, hf]
    constructor
    · obtain ⟨r, hr⟩ := apiRequest_call_trace scope ds "GET" ("/v1/folder/" ++ f ++ "/templates")
        none (listTemplatesParams scope args) hk
      exact ⟨r, by rw [handle_list_templates, hpathT]; simpa [attachBody] using hr⟩
    · obtain ⟨r, hr⟩ := apiRequest_call_trace scope ds "GET" ("/v1/folder/" ++ f ++ "/renders")
        none (listRendersParams scope args) hk
      exact ⟨r, by rw [handle_list_renders, hpathR]; simpa [attachBody] using hr⟩
  · intro hfid hk
    have hpathT : (if jsOptTruthy scope.folderId then
        "/v1/folder/" ++ scope.folderId.getD "" ++ "/templates" else "/v1/templates") =
        "/v1/templates" := by
      rw [hfid]; simp [jsOptTruthy]
    have hpathR : (if jsOptTruthy scope.folderId then
        "/v1/folder/" ++ scope.folderId.getD "" ++ "/renders" else "/v1/renders") =
        "/v1/renders" := by
      rw [hfid]; simp [jsOptTruthy]
    constructor
    · obtain ⟨r, hr⟩ := apiRequest_call_trace scope ds "GET" "/v1/templates"
        none (listTemplatesParams scope args) hk
      exact ⟨r, by rw [handle_list_templates, hpathT]; simpa [attachBody] using hr⟩
    · obtain ⟨r, hr⟩ := apiRequest_call_trace scope ds "GET" "/v1/renders"
        none (listRendersParams scope args) hk
      exact ⟨r, by rw [handle_list_renders, hpathR]; simpa [attachBody] using hr⟩
  · intro e hx he
    constructor
    · simp only [listTemplatesParams, hx]
      exact mem_addParamIf_self (by simp [jsOptTruthy, he])
    · simp only [listRendersParams, hx]
      exact mem_addParamIf_self (by simp [jsOptTruthy, he])
  · intro kv h
    have h2 : kv.1 ∈ paramKeys (listTemplateRendersParams args) := List.mem_map_of_mem Prod.fst h
    simp only [listTemplateRendersParams] at h2
    simp only [mem_paramKeys_addParamIf, paramKeys_nil, List.not_mem_nil, false_or] at h2
    rcases h2 with ⟨_, hp⟩ | ⟨_, hp⟩
    · exact Or.inl hp
    · exact Or.inr hp
  · intro k2 tid hk2 haT tv hdsT e he hext
    obtain ⟨r, hr⟩ := apiRequest_call_trace { apiKey := k2, folderId := none, externalId := some e }
      ds "GET" ("/v1/template/" ++ tid ++ "/renders") none (listTemplateRendersParams args) hk2
    refine ⟨r, ?_⟩
    simp only [handle_list_template_renders, haT, jsToString]
    rw [validateInFolder_none, validateByExternal_run k2 e tid none ds tv hk2 he hdsT, hr]
    simp [bindRes, hext, pureRes, attachBody]

/-- C4 counterexample: with an external id configured, list_template_renders
issues its main request with no externalId filter parameter (and on the
fixed template path), refuting the claim for that operation. -/
theorem c4_counterexample :
    handleToolCall { apiKey := "k", folderId := none, externalId := some "E" } dsInScope
        "list_template_renders" [("template_id", JsValue.strV "t1")] =
      ([templateFetchCall "t1",
        { method := "GET", path := "/v1/template/t1/renders", body := none, queryParams := [] }],
        Except.ok (JsValue.objV [("success", JsValue.boolV true)]))
    ∧ (∀ c, c ∈ (handleToolCall { apiKey := "k", folderId := none, externalId := some "E" } dsInScope
        "list_template_renders" [("template_id", JsValue.strV "t1")]).1 →
        ("externalId", "E") ∉ c.queryParams) := by
  have hrun : handleToolCall { apiKey := "k", folderId := none, externalId := some "E" } dsInScope
      "list_template_renders" [("template_id", JsValue.strV "t1")] =
      ([templateFetchCall "t1",
        { method := "GET", path := "/v1/template/t1/renders", body := none, queryParams := [] }],
        Except.ok (JsValue.objV [("success", JsValue.boolV true)])) := rfl
  refine ⟨hrun, ?_⟩
  intro c hc
  rw [hrun] at hc
  simp only [List.mem_cons, List.not_mem_nil, or_false] at hc
  rcases hc with rfl | rfl <;> simp [templateFetchCall]

/-- C4 witness: concrete folder and external-id scope for the two listing
tools. -/
theorem c4_witness :
    (∃ r, handleToolCall { apiKey := "k", folderId := some "F", externalId := some "E" } dsInScope
        "list_templates" [] =
      ([{ method := "GET", path := "/v1/folder/" ++ "F" ++ "/templates", body := none,
          queryParams := listTemplatesParams { apiKey := "k", folderId := some "F", externalId := some "E" } [] }], r))
    ∧ ("externalId", "E") ∈
        listTemplatesParams { apiKey := "k", folderId := some "F", externalId := some "E" } [] :=
  ⟨((c4_list_scoping_amended { apiKey := "k", folderId := some "F", externalId := some "E" }
      dsInScope []).1 "F" rfl (by decide) (by decide)).1,
   ((c4_list_scoping_amended { apiKey := "k", folderId := some "F", externalId := some "E" }
      dsInScope []).2.2.1 "E" rfl (by decide)).1⟩

/-- C6 (corrected): a scope-validation failure surfaces as the fixed
generic folder-scope error, identical across any two worlds in which the
template exists outside the configured folder — so the payload does not
reveal which out-of-scope object was addressed; but a template id that
does not exist at all produces the downstream 404 error text instead, so
an absent object IS distinguishable from an out-of-scope one. -/
theorem c6_scope_error_amended (k f t1 t2 : String) (ds1 ds2 : Downstream)
    (tv1 tv2 : JsValue) (args1 args2 : JsRecord)
    (hk : k ≠ "") (hf : f ≠ "")
    (ha1 : rget args1 "template_id" = JsValue.strV t1)
    (ha2 : rget args2 "template_id" = JsValue.strV t2)
    (hds1 : ds1 (templateFetchCall t1) = ApiResult.json tv1)
    (hds2 : ds2 (templateFetchCall t2) = ApiResult.json tv2)
    (hm1 : jsEqStr (jsGet tv1 "folderId") f = false)
    (hm2 : jsEqStr (jsGet tv2 "folderId") f = false) :
    callTool { apiKey := k, folderId := some f, externalId := none } ds1 "get_template" args1 =
      { text := "Error: Template not found in the configured folder", isError := true }
    ∧ callTool { apiKey := k, folderId := some f, externalId := none } ds2 "get_template" args2 =
      { text := "Error: Template not found in the configured folder", isError := true }
    ∧ callTool { apiKey := k, folderId := some f, externalId := none } ds1 "get_template" args1 =
      callTool { apiKey := k, folderId := some f, externalId := none } ds2 "get_template" args2 := by
  have h1 : callTool { apiKey := k, folderId := some f, externalId := none } ds1
      "get_template" args1 =
      { text := "Error: Template not found in the configured folder", isError := true } := by
    have hrun : handleToolCall { apiKey := k, folderId := some f, externalId := none } ds1
        "get_template" args1 =
        ([templateFetchCall t1], Except.error "Template not found in the configured folder") := by
      simp only [handle_get_template, ha1, jsToString]
      rw [validateInFolder_run k f t1 none ds1 tv1 hk hf hds1]
      simp [bindRes, hm1]
    simp [callTool, hrun]
  have h2 : callTool { apiKey := k, folderId := some f, externalId := none } ds2
      "get_template" args2 =
      { text := "Error: Template not found in the configured folder", isError := true } := by
    have hrun : handleToolCall { apiKey := k, folderId := some f, externalId := none } ds2
        "get_template" args2 =
        ([templateFetchCall t2], Except.error "Template not found in the configured folder") := by
      simp only [handle_get_template, ha2, jsToString]
      rw [validateInFolder_run k f t2 none ds2 tv2 hk hf hds2]
      simp [bindRes, hm2]
    simp [callTool, hrun]
  exact ⟨h1, h2, by rw [h1, h2]⟩

/-- C6 witness: a concrete out-of-scope world yields the generic scope
error payload. -/
theorem c6_witness :
    callTool { apiKey := "k", folderId := some "F", externalId := none } dsOutOfScope
        "get_template" [("template_id", JsValue.strV "t1")] =
      { text := "Error: Template not found in the configured folder", isError := true } :=
  (c6_scope_error_amended "k" "F" "t1" "t1" dsOutOfScope dsOutOfScope
    (JsValue.objV [("folderId", JsValue.strV "OTHER")])
    (JsValue.objV [("folderId", JsValue.strV "OTHER")])
    [("template_id", JsValue.strV "t1")] [("template_id", JsValue.strV "t1")]
    (by decide) (by decide) rfl rfl rfl rfl rfl rfl).1

/-- C6 counterexample: the same get_template call produces different error
payloads in a world where the template does not exist (downstream 404) and
in a world where it exists outside the configured folder (generic scope
error) — a caller CAN distinguish the two cases from the payload alone,
refuting the claim as stated. -/
theorem c6_counterexample :
    callTool { apiKey := "k", folderId := some "F", externalId := none } dsMissing
        "get_template" [("template_id", JsValue.strV "t1")] ≠
      callTool { apiKey := "k", folderId := some "F", externalId := none } dsOutOfScope
        "get_template" [("template_id", JsValue.strV "t1")]
    ∧ (callTool { apiKey := "k", folderId := some "F", externalId := none } dsMissing
        "get_template" [("template_id", JsValue.strV "t1")]).isError = true
    ∧ (callTool { apiKey := "k", folderId := some "F", externalId := none } dsOutOfScope
        "get_template" [("template_id", JsValue.strV "t1")]).isError = true := by
  refine ⟨by decide, rfl, rfl⟩
